import Mathlib

/-!
Verification of the scan-and-fingerprint engine of the network-dashboard
repository (Go sources under `scanner/`).  Go functions are shallowly
embedded as Lean functions: Go strings are modelled as `String`/`List Char`
(one `Char` per rune), machine integers as `Nat` with explicit `% 2 ^ 32`
where wraparound matters, network and external-process effects as explicit
oracles, and the two pieces of cross-task mutable state (the scan guard and
the admission gate) as step relations on explicit state types.
-/

namespace NetworkScanner

/-! ### Go string primitives

`goIsSpace` models Go's `unicode.IsSpace` (the White_Space code points);
`goTrimSpace` models `strings.TrimSpace` (drop leading and trailing
whitespace runes). -/

def goIsSpace (c : Char) : Bool :=
  c.toNat = 9 || c.toNat = 10 || c.toNat = 11 || c.toNat = 12 || c.toNat = 13 ||
  c.toNat = 32 || c.toNat = 133 || c.toNat = 160 || c.toNat = 0x1680 ||
  (0x2000 ≤ c.toNat && c.toNat ≤ 0x200A) || c.toNat = 0x2028 || c.toNat = 0x2029 ||
  c.toNat = 0x202F || c.toNat = 0x205F || c.toNat = 0x3000

def trimLeft (l : List Char) : List Char := l.dropWhile goIsSpace

def trimRight (l : List Char) : List Char := (l.reverse.dropWhile goIsSpace).reverse

def goTrimSpace (l : List Char) : List Char := trimRight (trimLeft l)

def goTrimSpaceS (s : String) : String := ⟨goTrimSpace s.data⟩

/-! ### `sanitizeBanner` (scanner/fingerprint.go)

The Go function trims whitespace, keeps printable ASCII runes (32–126),
replaces `\n`, `\r`, `\t` by a space, drops every other rune, truncates to
512 characters appending `"..."`, and trims again.  After the filter the
string is pure ASCII, so Go's byte-indexed `len(out) > 512` / `out[:512]`
agree with the rune counts used here. -/

def sanitizeChar (c : Char) : Option Char :=
  if 32 ≤ c.toNat ∧ c.toNat < 127 then some c
  else if c = '\n' ∨ c = '\r' ∨ c = '\t' then some ' '
  else none

def ellipsisMark : List Char := ['.', '.', '.']

def truncate512 (l : List Char) : List Char :=
  if l.length > 512 then l.take 512 ++ ellipsisMark else l

def sanitizeBannerL (l : List Char) : List Char :=
  goTrimSpace (truncate512 ((goTrimSpace l).filterMap sanitizeChar))

def sanitizeBanner (s : String) : String := ⟨sanitizeBannerL s.data⟩

/-! ### Lemmas about trimming -/

theorem dropWhile_idem (p : Char → Bool) (l : List Char) :
    (l.dropWhile p).dropWhile p = l.dropWhile p := by
  induction l with
  | nil => rfl
  | cons c l ih =>
    by_cases h : p c <;> simp [List.dropWhile_cons, h, ih]

theorem trimLeft_sublist (l : List Char) : List.Sublist (trimLeft l) l :=
  List.dropWhile_sublist _

theorem trimRight_sublist (l : List Char) : List.Sublist (trimRight l) l := by
  have h := (List.dropWhile_sublist (l := l.reverse) (p := goIsSpace)).reverse
  simpa [trimRight] using h

theorem goTrimSpace_sublist (l : List Char) : List.Sublist (goTrimSpace l) l :=
  (trimRight_sublist _).trans (trimLeft_sublist _)

theorem trimRight_idem (l : List Char) : trimRight (trimRight l) = trimRight l := by
  simp [trimRight, dropWhile_idem]

theorem trimLeft_head (l : List Char) :
    trimLeft l = [] ∨ ∃ c t, trimLeft l = c :: t ∧ goIsSpace c = false := by
  induction l with
  | nil => exact Or.inl rfl
  | cons c l ih =>
    by_cases h : goIsSpace c
    · simpa [trimLeft, List.dropWhile_cons, h] using ih
    · exact Or.inr ⟨c, l, by simp [trimLeft, List.dropWhile_cons, h], by simp [h]⟩

theorem trimLeft_trimRight_of_head (c : Char) (t : List Char)
    (hc : goIsSpace c = false) :
    trimLeft (trimRight (c :: t)) = trimRight (c :: t) := by
  unfold trimRight
  rw [List.reverse_cons, List.dropWhile_append]
  by_cases h : (t.reverse.dropWhile goIsSpace).isEmpty
  · simp [h, List.dropWhile_cons, hc, trimLeft]
  · simp [h, trimLeft, List.dropWhile_cons, hc]

theorem goTrimSpace_idem (l : List Char) :
    goTrimSpace (goTrimSpace l) = goTrimSpace l := by
  rcases trimLeft_head l with h | ⟨c, t, h, hc⟩
  · have h1 : goTrimSpace l = [] := by rw [goTrimSpace, h]; rfl
    rw [h1]; rfl
  · have h1 : goTrimSpace l = trimRight (c :: t) := by rw [goTrimSpace, h]
    rw [h1, goTrimSpace, trimLeft_trimRight_of_head c t hc, trimRight_idem]

/-! ### Character-range invariants of sanitization -/

def printableASCII (c : Char) : Prop := 32 ≤ c.toNat ∧ c.toNat < 127

theorem mem_filterMap_printable (l : List Char) (c : Char)
    (h : c ∈ l.filterMap sanitizeChar) : printableASCII c := by
  rcases List.mem_filterMap.1 h with ⟨a, _, ha⟩
  unfold sanitizeChar at ha
  split at ha
  · cases ha; assumption
  · split at ha
    · cases ha; exact ⟨by decide, by decide⟩
    · cases ha

theorem mem_truncate512 (l : List Char) (c : Char) (h : c ∈ truncate512 l) :
    c ∈ l ∨ c = '.' := by
  unfold truncate512 at h
  split at h
  · rcases List.mem_append.1 h with h | h
    · exact Or.inl (List.mem_of_mem_take h)
    · simp only [ellipsisMark, List.mem_cons, List.not_mem_nil, or_false] at h
      rcases h with h | h | h <;> exact Or.inr h
  · exact Or.inl h

theorem sanitizeBannerL_printable (l : List Char) (c : Char)
    (h : c ∈ sanitizeBannerL l) : printableASCII c := by
  unfold sanitizeBannerL at h
  have h1 : c ∈ truncate512 ((goTrimSpace l).filterMap sanitizeChar) :=
    (goTrimSpace_sublist (truncate512 ((goTrimSpace l).filterMap sanitizeChar))).subset h
  rcases mem_truncate512 _ _ h1 with h2 | h2
  · exact mem_filterMap_printable _ _ h2
  · subst h2; exact ⟨by decide, by decide⟩

theorem filterMap_sanitizeChar_of_printable (l : List Char)
    (h : ∀ c ∈ l, printableASCII c) : l.filterMap sanitizeChar = l := by
  induction l with
  | nil => rfl
  | cons c t ih =>
    have hc := h c (List.mem_cons_self ..)
    have ht := ih fun x hx => h x (List.mem_cons_of_mem _ hx)
    have hsc : sanitizeChar c = some c := by
      rw [sanitizeChar, if_pos ⟨hc.1, hc.2⟩]
    simp [List.filterMap_cons, hsc, ht]

theorem length_truncate512_le (l : List Char) : (truncate512 l).length ≤ 515 := by
  unfold truncate512
  split
  · simp only [List.length_append, ellipsisMark, List.length_cons, List.length_nil,
      List.length_take]
    omega
  · omega

theorem length_goTrimSpace_le (l : List Char) : (goTrimSpace l).length ≤ l.length :=
  (goTrimSpace_sublist l).length_le

theorem sanitizeBannerL_length_le (l : List Char) : (sanitizeBannerL l).length ≤ 515 :=
  le_trans (length_goTrimSpace_le _) (length_truncate512_le _)

/-- If trimming removed nothing by length count, it removed nothing at all. -/
theorem goTrimSpace_eq_of_length (l : List Char)
    (h : (goTrimSpace l).length = l.length) : goTrimSpace l = l :=
  (goTrimSpace_sublist l).eq_of_length h

theorem sanitizeBannerL_trimmed (l : List Char) :
    goTrimSpace (sanitizeBannerL l) = sanitizeBannerL l := by
  unfold sanitizeBannerL
  exact goTrimSpace_idem _

/-- Core amended idempotence: a second sanitization pass is the identity
whenever the first pass produced at most 512 characters (no re-truncation)
or exactly 515 characters (the truncated form kept all 512 characters, so
re-truncation reproduces it). -/
theorem sanitizeBannerL_idem (l : List Char)
    (h : (sanitizeBannerL l).length ≤ 512 ∨ (sanitizeBannerL l).length = 515) :
    sanitizeBannerL (sanitizeBannerL l) = sanitizeBannerL l := by
  have hprint : ∀ c ∈ sanitizeBannerL l, printableASCII c :=
    fun c hc => sanitizeBannerL_printable l c hc
  have htrim := sanitizeBannerL_trimmed l
  have hfilter := filterMap_sanitizeChar_of_printable _ hprint
  have expand : sanitizeBannerL (sanitizeBannerL l) =
      goTrimSpace (truncate512 ((goTrimSpace (sanitizeBannerL l)).filterMap sanitizeChar)) :=
    rfl
  rcases h with h | h
  · -- no second truncation
    rw [expand, htrim, hfilter, truncate512, if_neg (by omega)]
    exact htrim
  · -- the 515-character case: the first pass truncated and trimmed nothing
    set Z := (goTrimSpace l).filterMap sanitizeChar with hZ
    have hY : goTrimSpace (truncate512 Z) = truncate512 Z := by
      apply goTrimSpace_eq_of_length
      have hle := length_truncate512_le Z
      have hg : (goTrimSpace (truncate512 Z)).length ≤ (truncate512 Z).length :=
        length_goTrimSpace_le _
      have hzz : (goTrimSpace (truncate512 Z)).length = 515 := h
      omega
    have hsan : sanitizeBannerL l = truncate512 Z := hY
    have hlen : (truncate512 Z).length = 515 := by rw [← hsan]; exact h
    have hZlong : Z.length > 512 := by
      by_contra hc
      rw [truncate512, if_neg (by omega)] at hlen
      omega
    have htr : truncate512 Z = Z.take 512 ++ ellipsisMark := by
      rw [truncate512, if_pos hZlong]
    have htake : (truncate512 Z).take 512 = Z.take 512 := by
      rw [htr, List.take_append_of_le_length (by simp [List.length_take]; omega),
        List.take_take]
      simp
    have htt : truncate512 (truncate512 Z) = truncate512 Z := by
      conv_lhs => rw [truncate512]
      rw [if_pos (by omega), htake, ← htr]
    rw [expand, htrim, hfilter, hsan, htt, ← hsan, htrim]

/-! String-level wrappers -/

theorem sanitizeBanner_length (s : String) :
    (sanitizeBanner s).length = (sanitizeBannerL s.data).length := rfl

/-! ### `expandCIDR` (scanner/fingerprint.go, TCPScanner part)

An IPv4 address is modelled as a `Nat < 2 ^ 32` (Go renders it in dotted
form with `ip.String()`, an injective encoding).  `net.ParseCIDR` yields
the given base address and the mask of the given length p (`maskOf p`, the
high p bits set); the loop starts at `ip.Mask(ipnet.Mask)` (`base &&& maskOf
p`), appends while `ipnet.Contains(ip)` (`ip &&& mask == network`), and
advances with `inc`, a bytewise increment with carry, i.e. `(x+1) % 2^32`.
The Go loop has no fuel: it runs until `Contains` fails.  `expandLoop`
carries an explicit fuel of `2^32`, enough for every terminating execution
(a run makes at most `2^31 + 1` iterations whenever the mask is nonzero);
`none` means the Go loop did not exit within that many iterations. -/

def maskOf (p : Nat) : Nat := 2 ^ 32 - 2 ^ (32 - p)

def inc (x : Nat) : Nat := (x + 1) % 2 ^ 32

def cidrContains (m network x : Nat) : Bool := x &&& m == network

def expandLoop (m network : Nat) : Nat → Nat → List Nat → Option (List Nat)
  | 0, _, _ => none
  | fuel + 1, x, acc =>
    if cidrContains m network x then expandLoop m network fuel (inc x) (acc ++ [x])
    else some acc

def expandCIDR (base p : Nat) : Option (List Nat) :=
  (expandLoop (maskOf p) (base &&& maskOf p) (2 ^ 32) (base &&& maskOf p) []).map
    fun ips => if ips.length > 2 then (ips.drop 1).dropLast else ips

/-- Bitwise AND with the prefix mask clears the low `32 - p` bits. -/
theorem and_maskOf (x p : Nat) (hx : x < 2 ^ 32) (hp : p ≤ 32) :
    x &&& maskOf p = 2 ^ (32 - p) * (x / 2 ^ (32 - p)) := by
  set k := 32 - p with hk
  have hmask : maskOf p = (2 ^ p - 1) <<< k := by
    rw [maskOf, Nat.shiftLeft_eq, Nat.sub_mul, one_mul, ← Nat.pow_add]
    congr 2
    omega
  apply Nat.eq_of_testBit_eq
  intro j
  have hr : 2 ^ k * (x / 2 ^ k) = (x >>> k) <<< k := by
    rw [Nat.shiftLeft_eq, Nat.shiftRight_eq_div_pow, Nat.mul_comm]
  rw [Nat.testBit_and, hmask, Nat.testBit_shiftLeft, Nat.testBit_two_pow_sub_one,
    hr, Nat.testBit_shiftLeft, Nat.testBit_shiftRight]
  by_cases hjk : k ≤ j
  · have hje : k + (j - k) = j := by omega
    rw [hje]
    by_cases hj32 : j < 32
    · have hlt : j - k < p := by omega
      simp [hjk, hlt]
    · have hxj : x.testBit j = false :=
        Nat.testBit_lt_two_pow
          (lt_of_lt_of_le hx (Nat.pow_le_pow_right (by norm_num) (by omega)))
      simp [hxj]
  · simp [hjk]

theorem cidrContains_iff (base p x : Nat) (hb : base < 2 ^ 32) (hp : p ≤ 32)
    (hx : x < 2 ^ 32) :
    cidrContains (maskOf p) (base &&& maskOf p) x = true ↔
      x / 2 ^ (32 - p) = base / 2 ^ (32 - p) := by
  rw [cidrContains, beq_iff_eq, and_maskOf x p hx hp, and_maskOf base p hb hp]
  exact ⟨fun h => Nat.eq_of_mul_eq_mul_left (Nat.pos_pow_of_pos _ (by norm_num)) h,
    fun h => by rw [h]⟩

theorem network_le (base p : Nat) : base &&& maskOf p ≤ base := Nat.and_le_left

theorem network_add_block_le (base p : Nat) (hb : base < 2 ^ 32) (hp : p ≤ 32) :
    (base &&& maskOf p) + 2 ^ (32 - p) ≤ 2 ^ 32 := by
  rw [and_maskOf base p hb hp]
  have hdiv : base / 2 ^ (32 - p) < 2 ^ p := by
    apply Nat.div_lt_of_lt_mul
    calc base < 2 ^ 32 := hb
    _ = 2 ^ (32 - p) * 2 ^ p := by rw [← Nat.pow_add]; congr 1; omega
  calc 2 ^ (32 - p) * (base / 2 ^ (32 - p)) + 2 ^ (32 - p)
      = 2 ^ (32 - p) * (base / 2 ^ (32 - p) + 1) := by ring
    _ ≤ 2 ^ (32 - p) * 2 ^ p := Nat.mul_le_mul_left _ hdiv
    _ = 2 ^ 32 := by rw [← Nat.pow_add]; congr 1; omega

theorem network_div (base p : Nat) (hb : base < 2 ^ 32) (hp : p ≤ 32) :
    (base &&& maskOf p) / 2 ^ (32 - p) = base / 2 ^ (32 - p) := by
  rw [and_maskOf base p hb hp]
  exact Nat.mul_div_cancel_left _ (Nat.two_pow_pos _)

/-- The loop, run from `j` addresses before the end of the block, appends
exactly those `j` addresses and stops. -/
theorem expandLoop_run (base p : Nat) (hb : base < 2 ^ 32) (hp1 : 1 ≤ p)
    (hp : p ≤ 32) :
    ∀ j, j ≤ 2 ^ (32 - p) → ∀ fuel acc, j + 1 ≤ fuel →
      expandLoop (maskOf p) (base &&& maskOf p) fuel
        (((base &&& maskOf p) + (2 ^ (32 - p) - j)) % 2 ^ 32) acc =
      some (acc ++ List.range' ((base &&& maskOf p) + (2 ^ (32 - p) - j)) j) := by
  have hblock := network_add_block_le base p hb hp
  have hnetlt : base &&& maskOf p < 2 ^ 32 := lt_of_le_of_lt (network_le base p) hb
  have hdivnet := network_div base p hb hp
  have hNpos : 0 < 2 ^ (32 - p) := Nat.two_pow_pos _
  intro j
  induction j with
  | zero =>
    intro _ fuel acc hfuel
    match fuel, hfuel with
    | fuel + 1, _ =>
      have hfalse : cidrContains (maskOf p) (base &&& maskOf p)
          (((base &&& maskOf p) + (2 ^ (32 - p) - 0)) % 2 ^ 32) = false := by
        rw [Nat.sub_zero]
        rcases Nat.lt_or_ge ((base &&& maskOf p) + 2 ^ (32 - p)) (2 ^ 32) with hlt | hge
        · rw [Nat.mod_eq_of_lt hlt]
          refine Bool.eq_false_iff.2 fun hcon => ?_
          have hdiv := (cidrContains_iff base p _ hb hp hlt).1 hcon
          have hq : ((base &&& maskOf p) + 2 ^ (32 - p)) / 2 ^ (32 - p) =
              base / 2 ^ (32 - p) + 1 := by
            conv_lhs => rw [and_maskOf base p hb hp]
            rw [← Nat.mul_succ, Nat.mul_div_cancel_left _ (Nat.two_pow_pos _)]
          omega
        · have heq : (base &&& maskOf p) + 2 ^ (32 - p) = 2 ^ 32 := le_antisymm hblock hge
          rw [heq, Nat.mod_self]
          refine Bool.eq_false_iff.2 fun hcon => ?_
          have h0 := (cidrContains_iff base p 0 hb hp (Nat.two_pow_pos 32)).1 hcon
          rw [Nat.zero_div] at h0
          have hand : base &&& maskOf p = 0 := by
            rw [and_maskOf base p hb hp, ← h0, Nat.mul_zero]
          rw [hand, Nat.zero_add] at heq
          have hlt32 : 2 ^ (32 - p) < 2 ^ 32 :=
            Nat.pow_lt_pow_right (by norm_num) (by omega)
          omega
      have hcond : ¬ (cidrContains (maskOf p) (base &&& maskOf p)
          (((base &&& maskOf p) + (2 ^ (32 - p) - 0)) % 2 ^ 32) = true) := by
        rw [hfalse]; simp
      simp only [expandLoop, if_neg hcond]
      simp [List.range']
  | succ j ih =>
    intro hj fuel acc hfuel
    match fuel, hfuel with
    | fuel + 1, hfuel =>
      have hx : (base &&& maskOf p) + (2 ^ (32 - p) - (j + 1)) < 2 ^ 32 := by omega
      have hxmod := Nat.mod_eq_of_lt hx
      have htrue : cidrContains (maskOf p) (base &&& maskOf p)
          ((base &&& maskOf p) + (2 ^ (32 - p) - (j + 1))) = true := by
        rw [cidrContains_iff base p _ hb hp hx]
        conv_lhs => rw [and_maskOf base p hb hp]
        have hlt : 2 ^ (32 - p) - (j + 1) < 2 ^ (32 - p) := by omega
        rw [Nat.mul_add_div (Nat.two_pow_pos _), Nat.div_eq_of_lt hlt, Nat.add_zero]
      have hinc : inc ((base &&& maskOf p) + (2 ^ (32 - p) - (j + 1))) =
          ((base &&& maskOf p) + (2 ^ (32 - p) - j)) % 2 ^ 32 := by
        rw [inc]; congr 1; omega
      rw [hxmod]
      simp only [expandLoop, htrue, if_true, hinc]
      rw [ih (by omega) fuel (acc ++ [(base &&& maskOf p) + (2 ^ (32 - p) - (j + 1))])
        (by omega)]
      rw [List.append_assoc, List.singleton_append]
      have hstep : (base &&& maskOf p) + (2 ^ (32 - p) - j) =
          ((base &&& maskOf p) + (2 ^ (32 - p) - (j + 1))) + 1 := by omega
      rw [hstep, ← List.range'_succ]

/-- Full run of the Go loop for a nonzero-length mask: it terminates within
the `2 ^ 32` fuel and collects exactly the masked block in numeric order. -/
theorem expandLoop_full (base p : Nat) (hb : base < 2 ^ 32) (hp1 : 1 ≤ p)
    (hp : p ≤ 32) :
    expandLoop (maskOf p) (base &&& maskOf p) (2 ^ 32) (base &&& maskOf p) [] =
      some (List.range' (base &&& maskOf p) (2 ^ (32 - p))) := by
  have hnetlt : base &&& maskOf p < 2 ^ 32 := lt_of_le_of_lt (network_le base p) hb
  have h := expandLoop_run base p hb hp1 hp (2 ^ (32 - p)) le_rfl (2 ^ 32) []
    (by
      have h31 : 2 ^ (32 - p) ≤ 2 ^ 31 := Nat.pow_le_pow_right (by norm_num) (by omega)
      have h32 : (2 ^ 31 : Nat) + 1 ≤ 2 ^ 32 := by norm_num
      omega)
  rw [Nat.sub_self, Nat.add_zero, Nat.mod_eq_of_lt hnetlt] at h
  simpa using h

theorem expandLoop_mask_zero (fuel x : Nat) (acc : List Nat) :
    expandLoop 0 0 fuel x acc = none := by
  induction fuel generalizing x acc with
  | zero => rfl
  | succ fuel ih =>
    have : cidrContains 0 0 x = true := by simp [cidrContains]
    simp only [expandLoop, this, if_true]
    exact ih _ _

/-! ### "All ports" batching (TCPScanner.ScanAllPorts in fingerprint.go and
ZmapScanner.scanNetworkAllPorts in zmap.go)

Both loops run `batchStart` over 1, 1001, 2001, … while `batchStart ≤
65535` with `batchEnd = min (batchStart + 999) 65535` and process the
ports `batchStart..batchEnd`; `portBatches s` is the list of port batches
generated from `s`.  The per-port probe outcome is abstracted by an oracle
`openHosts : port → list of responding addresses` (one entry per element
of that port's `portResults`, in completion order); the Go result map
`map[string][]int` with `results[ip] = append(results[ip], port)` is
modelled as the function `HostPorts` with pointwise append.  The run is
modelled uncancelled and with per-port errors absorbed as empty results,
exactly as both loops `continue` on error. -/

def HostPorts : Type := String → List Nat

def emptyHosts : HostPorts := fun _ => []

/-- `for _, r := range portResults { results[r.IP] = append(results[r.IP], r.Port) }` -/
def addPortResults (acc : HostPorts) (port : Nat) (hosts : List String) : HostPorts :=
  hosts.foldl (fun a ipr => fun ip => if ip = ipr then a ip ++ [port] else a ip) acc

/-- One iteration of the per-port loop body shared by `ScanPorts` and
`scanNetworkAllPorts`: scan one port and append its results. -/
def scanPortStep (openHosts : Nat → List String) (acc : HostPorts) (port : Nat) :
    HostPorts :=
  addPortResults acc port (openHosts port)

/-- `ScanPorts` / `ScanPortsWithCallback`: one pass over the given ports. -/
def scanPortsFun (openHosts : Nat → List String) (ports : List Nat) : HostPorts :=
  ports.foldl (scanPortStep openHosts) emptyHosts

/-- The per-batch merge of `TCPScanner.ScanAllPorts`:
`for ip, ports := range batchResults { results[ip] = append(results[ip], ports...) }`. -/
def mergeBatch (openHosts : Nat → List String) (results : HostPorts)
    (batch : List Nat) : HostPorts :=
  fun ip => results ip ++ scanPortsFun openHosts batch ip

/-- The batch list produced by `for batchStart := 1; batchStart <= 65535;
batchStart += 1000`, each batch being `batchStart..min (batchStart+999) 65535`. -/
def portBatches (batchStart : Nat) : List (List Nat) :=
  if h : batchStart ≤ 65535 then
    List.range' batchStart (min (batchStart + 999) 65535 + 1 - batchStart) ::
      portBatches (batchStart + 1000)
  else []
  termination_by 65536 - batchStart

/-- `TCPScanner.ScanAllPorts`: per batch it calls `ScanPorts` and merges the
batch map into the total with per-address append. -/
def scanAllPortsTCP (openHosts : Nat → List String) : HostPorts :=
  (portBatches 1).foldl (mergeBatch openHosts) emptyHosts

/-- `ZmapScanner.scanNetworkAllPorts`: per batch it scans each port singly,
appending each port's results into the shared map. -/
def scanNetworkAllPorts (openHosts : Nat → List String) : HostPorts :=
  (portBatches 1).foldl
    (fun results batch => batch.foldl (scanPortStep openHosts) results)
    emptyHosts

theorem portBatches_join (s : Nat) :
    (portBatches s).flatten = List.range' s (65536 - s) := by
  have H : ∀ n s, 65536 - s ≤ n → (portBatches s).flatten = List.range' s (65536 - s) := by
    intro n
    induction n with
    | zero =>
      intro s hs
      rw [portBatches, dif_neg (by omega)]
      have h0 : 65536 - s = 0 := by omega
      rw [h0]
      rfl
    | succ n ih =>
      intro s hs
      by_cases h : s ≤ 65535
      · rw [portBatches, dif_pos h, List.flatten_cons, ih (s + 1000) (by omega)]
        rcases le_or_lt (s + 999) 65535 with hle | hlt
        · rw [min_eq_left hle]
          have h1 : s + 999 + 1 - s = 1000 := by omega
          rw [h1, List.range'_append_1]
          congr 1
          omega
        · rw [min_eq_right (by omega)]
          have h2 : 65536 - (s + 1000) = 0 := by omega
          rw [h2]
          have h3 : List.range' (s + 1000) 0 = [] := rfl
          rw [h3, List.append_nil]
      · rw [portBatches, dif_neg h]
        have h0 : 65536 - s = 0 := by omega
        rw [h0]
        rfl
  exact H (65536 - s) s le_rfl

theorem portBatches_one_join : (portBatches 1).flatten = List.range' 1 65535 := by
  have h := portBatches_join 1
  norm_num at h
  exact h

theorem addPortResults_acc (port : Nat) (hosts : List String) (acc : HostPorts)
    (ip : String) :
    addPortResults acc port hosts ip = acc ip ++ addPortResults emptyHosts port hosts ip := by
  induction hosts generalizing acc with
  | nil => simp [addPortResults, emptyHosts]
  | cons h t ih =>
    show addPortResults (fun x => if x = h then acc x ++ [port] else acc x) port t ip = _
    rw [ih]
    conv_rhs =>
      rw [show addPortResults emptyHosts port (h :: t) ip =
        addPortResults (fun x => if x = h then emptyHosts x ++ [port] else emptyHosts x)
          port t ip from rfl]
    rw [ih (fun x => if x = h then emptyHosts x ++ [port] else emptyHosts x)]
    by_cases hip : ip = h <;> simp [hip, emptyHosts]

theorem scanPortsFold_acc (openHosts : Nat → List String) (ports : List Nat)
    (acc : HostPorts) (ip : String) :
    ports.foldl (scanPortStep openHosts) acc ip =
      acc ip ++ scanPortsFun openHosts ports ip := by
  induction ports generalizing acc with
  | nil => simp [scanPortsFun, emptyHosts]
  | cons p t ih =>
    show t.foldl _ (scanPortStep openHosts acc p) ip = _
    rw [ih, scanPortStep, addPortResults_acc]
    conv_rhs =>
      rw [show scanPortsFun openHosts (p :: t) ip =
        t.foldl (scanPortStep openHosts) (scanPortStep openHosts emptyHosts p) ip from rfl]
    rw [ih (scanPortStep openHosts emptyHosts p), List.append_assoc, scanPortStep]

theorem scanPortsFun_append (openHosts : Nat → List String) (l₁ l₂ : List Nat)
    (ip : String) :
    scanPortsFun openHosts (l₁ ++ l₂) ip =
      scanPortsFun openHosts l₁ ip ++ scanPortsFun openHosts l₂ ip := by
  rw [scanPortsFun, List.foldl_append]
  exact scanPortsFold_acc openHosts l₂ _ ip

theorem scanAllPortsTCP_batches (openHosts : Nat → List String) :
    ∀ (batches : List (List Nat)) (acc : HostPorts) (ip : String),
      batches.foldl (mergeBatch openHosts) acc ip =
        acc ip ++ scanPortsFun openHosts batches.flatten ip := by
  intro batches
  induction batches with
  | nil => intro acc ip; simp [scanPortsFun, emptyHosts]
  | cons b bs ih =>
    intro acc ip
    show bs.foldl _ (mergeBatch openHosts acc b) ip = _
    rw [ih, List.flatten_cons, scanPortsFun_append, mergeBatch, List.append_assoc]

/-! ### `ZmapScanner.scanNetworkPort` failure policy (zmap.go)

The external process part is modelled from the point the process has been
started: `rows` is the sequence of outcomes of successive `csv.Reader.Read`
calls on its standard output before EOF (`none` = a row the CSV reader
rejected, skipped with `continue`), `exitErr` is whether `cmd.Wait`
returned an error (non-zero exit or kill), `ctxErr` is whether the run's
context was cancelled or past its deadline, and `stderr` is the process's
collected standard error.  The Go code skips the first read as a header
row, keeps records whose first field is nonempty, and trims each kept
address. -/

structure ZmapResult where
  ip : String
  port : Nat
deriving DecidableEq

inductive ScanErr
  | ctxCanceled
  | zmapFailed (stderr : String)
deriving DecidableEq

def parseZmapRows (rows : List (Option (List String))) (port : Nat) :
    List ZmapResult :=
  match rows with
  | [] => []
  | _header :: rest =>
    rest.foldl
      (fun acc row =>
        match row with
        | none => acc
        | some [] => acc
        | some (c :: _) =>
          if c ≠ "" then acc ++ [⟨goTrimSpaceS c, port⟩] else acc)
      []

def scanNetworkPort (rows : List (Option (List String))) (port : Nat)
    (exitErr ctxErr : Bool) (stderr : String) : List ZmapResult × Option ScanErr :=
  if exitErr then
    if ctxErr then (parseZmapRows rows port, some .ctxCanceled)
    else if (parseZmapRows rows port).length = 0 ∧ stderr ≠ "" then
      ([], some (.zmapFailed stderr))
    else (parseZmapRows rows port, none)
  else (parseZmapRows rows port, none)

/-! ### Concurrency Guard (scanner/main.go)

`runScan` guards its body with `scanMutex`/`isScanning`: under the lock it
rejects if a scan is running, otherwise sets the flag; its deferred epilogue
clears the flag and stores `lastScanTime`.  Because every access is under
the one mutex, the guard is modelled as atomic operations on an explicit
state; `active` instruments the number of scan bodies past the guard. -/

structure GuardState where
  isScanning : Bool
  active : Nat
  lastScanTime : Option Nat
deriving DecidableEq

inductive StartOutcome
  | started
  | alreadyRunning
deriving DecidableEq

/-- The guarded entry of `runScan`: under `scanMutex`, reject when
`isScanning`, else set it and enter the body. -/
def runScanStart (s : GuardState) : GuardState × StartOutcome :=
  if s.isScanning then (s, .alreadyRunning)
  else ({ s with isScanning := true, active := s.active + 1 }, .started)

/-- The deferred epilogue of `runScan`: under `scanMutex`, clear
`isScanning` and record the completion time. -/
def runScanFinish (s : GuardState) (now : Nat) : GuardState :=
  { isScanning := false, active := s.active - 1, lastScanTime := some now }

/-- States reachable from process start (`isScanning = false`, no scan body
active, `lastScanTime` zero); the epilogue only ever runs inside a body. -/
inductive GuardReachable : GuardState → Prop
  | init : GuardReachable ⟨false, 0, none⟩
  | start (s : GuardState) : GuardReachable s → GuardReachable (runScanStart s).1
  | finish (s : GuardState) (now : Nat) : GuardReachable s → 1 ≤ s.active →
      GuardReachable (runScanFinish s now)

theorem guard_invariant (s : GuardState) (h : GuardReachable s) :
    s.active = if s.isScanning then 1 else 0 := by
  induction h with
  | init => rfl
  | start t _ ih =>
    by_cases ht : t.isScanning
    · simp [runScanStart, ht, ih]
    · simp [runScanStart, ht] at ih ⊢
      omega
  | finish t now _ hact ih =>
    have ht : t.isScanning = true := by
      by_contra hf
      simp [hf] at ih
      omega
    rw [ht] at ih
    simp only [if_true] at ih
    simp [runScanFinish, ih]

/-! ### Admission gate of the native probe backend
(`TCPScanner.ScanPort` in fingerprint.go)

The buffered channel `sem := make(chan struct{}, t.Rate)` is a counting
semaphore: the dispatch loop blocks on `sem <- struct{}{}` before spawning
the goroutine that dials, and the goroutine's deferred `<-sem` releases on
completion of the attempt, whether the dial succeeded or failed.  The gate
is modelled as an interleaving step relation; `inflight` counts goroutines
between acquire and release (every dial happens inside that window). -/

structure PoolState where
  pending : Nat
  inflight : Nat
  released : Nat
deriving DecidableEq

inductive PoolStep (rate : Nat) : PoolState → PoolState → Prop
  /-- `sem <- struct{}{}`: admit a new probe task; only possible while the
  channel buffer has room, i.e. fewer than `rate` holders. -/
  | acquire (s : PoolState) : 1 ≤ s.pending → s.inflight < rate →
      PoolStep rate s ⟨s.pending - 1, s.inflight + 1, s.released⟩
  /-- dial succeeded; `defer func() { <-sem }()` releases the slot. -/
  | finishOk (s : PoolState) : 1 ≤ s.inflight →
      PoolStep rate s ⟨s.pending, s.inflight - 1, s.released + 1⟩
  /-- dial failed or timed out; the deferred release still runs. -/
  | finishFail (s : PoolState) : 1 ≤ s.inflight →
      PoolStep rate s ⟨s.pending, s.inflight - 1, s.released + 1⟩

inductive PoolReachable (rate targets : Nat) : PoolState → Prop
  | init : PoolReachable rate targets ⟨targets, 0, 0⟩
  | step (s s' : PoolState) : PoolReachable rate targets s → PoolStep rate s s' →
      PoolReachable rate targets s'

theorem pool_invariant (rate targets : Nat) (s : PoolState)
    (h : PoolReachable rate targets s) : s.inflight ≤ rate := by
  induction h with
  | init => exact Nat.zero_le _
  | step t t' _ hstep ih =>
    cases hstep with
    | acquire hp hr => simpa using hr
    | finishOk hi => simp; omega
    | finishFail hi => simp; omega

theorem scanNetworkPort_exit_noctx (rows : List (Option (List String)))
    (port : Nat) (stderr : String) :
    scanNetworkPort rows port true false stderr =
      if (parseZmapRows rows port).length = 0 ∧ stderr ≠ "" then
        ([], some (ScanErr.zmapFailed stderr))
      else (parseZmapRows rows port, none) := by
  simp [scanNetworkPort]

/-! ### String helpers shared by the fingerprinting code

These model the `strings` and `regexp` calls of fingerprint.go/zgrab.go.
The three regular expressions of the native HTTP probe and the two version
patterns of `extractVersion` are implemented as direct scanning functions
with the same greedy, leftmost-start semantics; they matter only on the
protocol-success paths, which none of the verified claims constrain. -/

def startsWithL : List Char → List Char → Bool
  | _, [] => true
  | [], _ :: _ => false
  | c :: cs, d :: ds => c = d && startsWithL cs ds

def containsL : List Char → List Char → Bool
  | [], sub => startsWithL [] sub
  | c :: t, sub => startsWithL (c :: t) sub || containsL t sub

/-- `strings.Contains` -/
def goContains (s sub : String) : Bool := containsL s.data sub.data

/-- `strings.HasPrefix` -/
def goStartsWith (s pat : String) : Bool := startsWithL s.data pat.data

/-- `strings.ToLower` (the keywords searched are ASCII). -/
def goToLower (s : String) : String := ⟨s.data.map Char.toLower⟩

def breakAtChar (sep : Char) : List Char → Option (List Char × List Char)
  | [] => none
  | c :: t =>
    if c = sep then some ([], t)
    else
      match breakAtChar sep t with
      | none => none
      | some (a, b) => some (c :: a, b)

/-- `strings.SplitN(s, sep, n)` for n ≥ 1 (a one-character separator). -/
def splitNL (sep : Char) : Nat → List Char → List (List Char)
  | 0, l => [l]
  | 1, l => [l]
  | n + 2, l =>
    match breakAtChar sep l with
    | none => [l]
    | some (a, b) => a :: splitNL sep (n + 1) b

def isDigitCh (c : Char) : Bool := 48 ≤ c.toNat && c.toNat ≤ 57

def isWordCh (c : Char) : Bool := c.isAlphanum || c = '_'

def isRegexSpace (c : Char) : Bool :=
  c = ' ' || c = '\t' || c = '\n' || c = '\r' || c.toNat = 11 || c.toNat = 12

/-- Suffix after the first occurrence of `pat`. -/
def findAfter : List Char → List Char → Option (List Char)
  | [], pat => if startsWithL [] pat then some [] else none
  | c :: t, pat =>
    if startsWithL (c :: t) pat then some ((c :: t).drop pat.length)
    else findAfter t pat

/-- Suffix (in original case) after the first case-insensitive occurrence
of the lowercase pattern `pat`. -/
def findAfterCI : List Char → List Char → Option (List Char)
  | [], pat => if startsWithL [] pat then some [] else none
  | c :: t, pat =>
    if startsWithL ((c :: t).map Char.toLower) pat then some ((c :: t).drop pat.length)
    else findAfterCI t pat

/-- Index of the first case-insensitive occurrence of `pat`. -/
def indexOfCI : List Char → List Char → Option Nat
  | [], pat => if startsWithL [] pat then some 0 else none
  | c :: t, pat =>
    if startsWithL ((c :: t).map Char.toLower) pat then some 0
    else
      match indexOfCI t pat with
      | some i => some (i + 1)
      | none => none

/-- One attempt of the pattern `\d+\.\d+(\.\d+)?([.-]\w+)?` anchored at the
start of `l`. -/
def matchV1At (l : List Char) : Option (List Char) :=
  let d1 := l.takeWhile isDigitCh
  let r1 := l.dropWhile isDigitCh
  if d1 = [] then none
  else
    match r1 with
    | '.' :: r2 =>
      let d2 := r2.takeWhile isDigitCh
      let r3 := r2.dropWhile isDigitCh
      if d2 = [] then none
      else
        let pm :=
          match r3 with
          | '.' :: r3' =>
            let d3 := r3'.takeWhile isDigitCh
            if d3 = [] then (([] : List Char), r3)
            else ('.' :: d3, r3'.dropWhile isDigitCh)
          | _ => ([], r3)
        let m4 :=
          match pm.2 with
          | c :: r5 =>
            if c = '.' ∨ c = '-' then
              let w := r5.takeWhile isWordCh
              if w = [] then [] else c :: w
            else []
          | [] => []
        some (d1 ++ '.' :: d2 ++ pm.1 ++ m4)
    | _ => none

/-- One attempt of the pattern `v(\d+\.\d+(?:\.\d+)?)` anchored at the
start of `l` (the capture group drops the `v`). -/
def matchV2At (l : List Char) : Option (List Char) :=
  match l with
  | 'v' :: r1 =>
    let d1 := r1.takeWhile isDigitCh
    let r2 := r1.dropWhile isDigitCh
    if d1 = [] then none
    else
      match r2 with
      | '.' :: r3 =>
        let d2 := r3.takeWhile isDigitCh
        let r4 := r3.dropWhile isDigitCh
        if d2 = [] then none
        else
          let pm :=
            match r4 with
            | '.' :: r4' =>
              let d3 := r4'.takeWhile isDigitCh
              if d3 = [] then ([] : List Char) else '.' :: d3
            | _ => []
          some (d1 ++ '.' :: d2 ++ pm)
      | _ => none
  | _ => none

def scanFirst (p : List Char → Option (List Char)) : List Char → Option (List Char)
  | [] => p []
  | c :: t =>
    match p (c :: t) with
    | some m => some m
    | none => scanFirst p t

/-- `extractVersion` (fingerprint.go): first match of the first pattern,
else first match of the second. -/
def extractVersion (banner : String) : String :=
  match scanFirst matchV1At banner.data with
  | some m => ⟨m⟩
  | none =>
    match scanFirst matchV2At banner.data with
    | some m => ⟨m⟩
    | none => ""

/-- `guessServiceFromBanner` (fingerprint.go). -/
def guessServiceFromBanner (banner : String) (_port : Nat) : String :=
  let lower := goToLower banner
  if goContains lower "ssh" then "ssh"
  else if goContains lower "ftp" then "ftp"
  else if goContains lower "smtp" || goContains lower "mail" then "smtp"
  else if goContains lower "http" then "http"
  else if goContains lower "mysql" then "mysql"
  else if goContains lower "postgresql" || goContains lower "postgres" then "postgresql"
  else if goContains lower "redis" then "redis"
  else if goContains lower "mongodb" || goContains lower "mongo" then "mongodb"
  else if goContains lower "imap" then "imap"
  else if goContains lower "pop" then "pop3"
  else if goContains lower "telnet" then "telnet"
  else ""

/-- `getDefaultServiceName` (fingerprint.go): the static port→name table,
with "unknown" for absent ports. -/
def getDefaultServiceName (port : Nat) : String :=
  if port = 21 then "ftp"
  else if port = 22 then "ssh"
  else if port = 23 then "telnet"
  else if port = 25 then "smtp"
  else if port = 53 then "dns"
  else if port = 80 then "http"
  else if port = 110 then "pop3"
  else if port = 143 then "imap"
  else if port = 443 then "https"
  else if port = 445 then "smb"
  else if port = 465 then "smtps"
  else if port = 587 then "submission"
  else if port = 993 then "imaps"
  else if port = 995 then "pop3s"
  else if port = 1433 then "mssql"
  else if port = 1521 then "oracle"
  else if port = 3306 then "mysql"
  else if port = 3389 then "rdp"
  else if port = 5432 then "postgresql"
  else if port = 5900 then "vnc"
  else if port = 6379 then "redis"
  else if port = 8080 then "http-proxy"
  else if port = 8443 then "https-alt"
  else if port = 27017 then "mongodb"
  else "unknown"

/-! ### Native fingerprinting (Fingerprinter, fingerprint.go)

Network effects are abstracted by an oracle: `Network.dial ip port` is
`none` when `net.DialTimeout` (or `tls.DialWithDialer` for the TLS ports)
fails, and otherwise carries what the connection's reads return.  Each
probe performs a fixed read pattern, so a `Conn` records one field per
read the probes perform; reads are capped at the configured buffer size
where the Go code reads into `make([]byte, f.MaxBanner)`. -/

structure Conn where
  /-- data returned by `bufio.Reader.ReadString('\n')` (on error, the data
  read so far). -/
  lineData : String := ""
  /-- `ReadString` returned an error other than `io.EOF`. -/
  lineErr : Bool := false
  /-- bytes of the first `conn.Read`, as text (`""` = nothing read). -/
  rawData : String := ""
  /-- bytes of the second `conn.Read` (the Redis INFO response). -/
  rawData2 : String := ""
  /-- bytes of the first `conn.Read`, for the binary MySQL parse. -/
  rawBytes : List Nat := []
  /-- the single byte read by the PostgreSQL probe, if any. -/
  pgReply : Option Nat := none

structure Network where
  dial : String → Nat → Option Conn

inductive FPVal
  | s (v : String)
  | n (v : Nat)
  | b (v : Bool)
  | strs (v : List String)
  | pairs (v : List (String × String))
  | obj (v : List (String × FPVal))

/-- `ServiceInfo` (fingerprint.go); `fingerprint` models the
`map[string]interface{}` as an association list in insertion order (every
code path inserts distinct keys). -/
structure ServiceInfo where
  serviceName : String := ""
  serviceVersion : String := ""
  banner : String := ""
  fingerprint : List (String × FPVal) := []

structure Fingerprinter where
  timeout : Nat
  maxBanner : Nat

def NewFingerprinter : Fingerprinter := ⟨5, 1024⟩

def Fingerprinter.probeGeneric (f : Fingerprinter) (net : Network) (ip : String)
    (port : Nat) : ServiceInfo :=
  match net.dial ip port with
  | none => {}
  | some c =>
    let data := c.rawData.take f.maxBanner
    if data ≠ "" then { banner := sanitizeBanner data } else {}

def Fingerprinter.probeSSH (f : Fingerprinter) (net : Network) (ip : String)
    (port : Nat) : ServiceInfo :=
  let info : ServiceInfo := { serviceName := "ssh" }
  match net.dial ip port with
  | none => info
  | some c =>
    if c.lineErr then info
    else
      let banner := c.lineData
      let info := { info with banner := sanitizeBanner banner }
      if goStartsWith banner "SSH-" then
        match splitNL '-' 3 banner.data with
        | _ :: _ :: p2 :: _ => { info with serviceVersion := goTrimSpaceS ⟨p2⟩ }
        | _ => info
      else info

/-- `(?i)Server:\s*([^\r\n]+)` applied to the response. -/
def findServerHeader (s : String) : Option String :=
  match findAfterCI s.data "server:".data with
  | none => none
  | some rest =>
    let v := (rest.dropWhile isRegexSpace).takeWhile fun c => ¬ (c = '\r' ∨ c = '\n')
    if v = [] then none else some ⟨v⟩

/-- `HTTP/[\d.]+\s+(\d+)` applied to the response. -/
def findStatusCode (s : String) : Option String :=
  match findAfter s.data "HTTP/".data with
  | none => none
  | some rest =>
    let vd := rest.takeWhile fun c => isDigitCh c || c = '.'
    if vd = [] then none
    else
      let r2 := rest.drop vd.length
      let sp := r2.takeWhile isRegexSpace
      if sp = [] then none
      else
        let d := (r2.drop sp.length).takeWhile isDigitCh
        if d = [] then none else some ⟨d⟩

/-- `(?i)<title>([^<]+)</title>` applied to the response. -/
def findTitle (s : String) : Option String :=
  match findAfterCI s.data "<title>".data with
  | none => none
  | some rest =>
    let v := rest.takeWhile (· ≠ '<')
    if v ≠ [] ∧ startsWithL ((rest.drop v.length).map Char.toLower) "</title>".data
    then some ⟨v⟩ else none

def Fingerprinter.probeHTTP (f : Fingerprinter) (net : Network) (ip : String)
    (port : Nat) (useTLS : Bool) : ServiceInfo :=
  let info : ServiceInfo := { serviceName := if useTLS then "https" else "http" }
  match net.dial ip port with
  | none => info
  | some c =>
    let response := c.rawData.take f.maxBanner
    if response ≠ "" then
      let info := { info with banner := sanitizeBanner response }
      let info :=
        match findServerHeader response with
        | some v => { info with serviceVersion := goTrimSpaceS v }
        | none => info
      let fp : List (String × FPVal) := []
      let fp :=
        match findStatusCode response with
        | some code => fp ++ [("status_code", FPVal.s code)]
        | none => fp
      let fp :=
        match findTitle response with
        | some t => fp ++ [("title", FPVal.s (goTrimSpaceS t))]
        | none => fp
      { info with fingerprint := fp }
    else info

def Fingerprinter.probeFTP (f : Fingerprinter) (net : Network) (ip : String)
    (port : Nat) : ServiceInfo :=
  let info : ServiceInfo := { serviceName := "ftp" }
  match net.dial ip port with
  | none => info
  | some c =>
    let banner := c.lineData
    let info := { info with banner := sanitizeBanner banner }
    if goStartsWith banner "220" then { info with serviceVersion := extractVersion banner }
    else info

def Fingerprinter.probeTelnet (f : Fingerprinter) (net : Network) (ip : String)
    (port : Nat) : ServiceInfo :=
  let info : ServiceInfo := { serviceName := "telnet" }
  match net.dial ip port with
  | none => info
  | some c =>
    let data := c.rawData.take f.maxBanner
    if data ≠ "" then { info with banner := sanitizeBanner data } else info

def Fingerprinter.probeSMTP (f : Fingerprinter) (net : Network) (ip : String)
    (port : Nat) : ServiceInfo :=
  let info : ServiceInfo := { serviceName := "smtp" }
  match net.dial ip port with
  | none => info
  | some c =>
    let banner := c.lineData
    let info := { info with banner := sanitizeBanner banner }
    if goStartsWith banner "220" then { info with serviceVersion := extractVersion banner }
    else info

def Fingerprinter.probePOP3 (f : Fingerprinter) (net : Network) (ip : String)
    (port : Nat) : ServiceInfo :=
  let info : ServiceInfo := { serviceName := "pop3" }
  match net.dial ip port with
  | none => info
  | some c => { info with banner := sanitizeBanner c.lineData }

def Fingerprinter.probeIMAP (f : Fingerprinter) (net : Network) (ip : String)
    (port : Nat) : ServiceInfo :=
  let info : ServiceInfo := { serviceName := "imap" }
  match net.dial ip port with
  | none => info
  | some c => { info with banner := sanitizeBanner c.lineData }

def Fingerprinter.probeMySQL (f : Fingerprinter) (net : Network) (ip : String)
    (port : Nat) : ServiceInfo :=
  let info : ServiceInfo := { serviceName := "mysql" }
  match net.dial ip port with
  | none => info
  | some c =>
    let buf := c.rawBytes.take f.maxBanner
    if buf.length > 0 then
      if buf.length > 5 then
        let verBytes := (buf.drop 5).takeWhile fun b => b ≠ 0
        if verBytes.length > 0 then
          let v : String := ⟨verBytes.map Char.ofNat⟩
          { info with serviceVersion := v, banner := "MySQL " ++ v }
        else info
      else info
    else info

def Fingerprinter.probePostgreSQL (f : Fingerprinter) (net : Network) (ip : String)
    (port : Nat) : ServiceInfo :=
  let info : ServiceInfo := { serviceName := "postgresql" }
  match net.dial ip port with
  | none => info
  | some c =>
    match c.pgReply with
    | some b =>
      if b = 78 then { info with banner := "PostgreSQL (SSL not supported)" }
      else if b = 83 then { info with banner := "PostgreSQL (SSL supported)" }
      else info
    | none => info

/-- `redis_version:(\S+)` applied to the INFO response. -/
def findRedisVersion (s : String) : Option String :=
  match findAfter s.data "redis_version:".data with
  | none => none
  | some rest =>
    let v := rest.takeWhile fun c => ¬ isRegexSpace c
    if v = [] then none else some ⟨v⟩

def Fingerprinter.probeRedis (f : Fingerprinter) (net : Network) (ip : String)
    (port : Nat) : ServiceInfo :=
  let info : ServiceInfo := { serviceName := "redis" }
  match net.dial ip port with
  | none => info
  | some c =>
    let response := c.rawData.take f.maxBanner
    if response ≠ "" then
      let info :=
        if goContains response "PONG" then { info with banner := "Redis server" }
        else if goContains response "NOAUTH" then
          { info with banner := "Redis server (authentication required)" }
        else info
      let infoResp := c.rawData2.take f.maxBanner
      if infoResp ≠ "" then
        match findRedisVersion infoResp with
        | some v => { info with serviceVersion := v }
        | none => info
      else info
    else info

def Fingerprinter.probeMongoDB (f : Fingerprinter) (net : Network) (ip : String)
    (port : Nat) : ServiceInfo :=
  let info : ServiceInfo := { serviceName := "mongodb" }
  match net.dial ip port with
  | none => info
  | some c =>
    let data := c.rawData.take f.maxBanner
    if data ≠ "" then { info with banner := sanitizeBanner data }
    else { info with banner := "MongoDB" }

/-- The port-dispatch switch of `Fingerprinter.fingerprintPort`. -/
def Fingerprinter.dispatchProbe (f : Fingerprinter) (net : Network) (ip : String)
    (port : Nat) : ServiceInfo :=
  if port = 21 then f.probeFTP net ip port
  else if port = 22 then f.probeSSH net ip port
  else if port = 23 then f.probeTelnet net ip port
  else if port = 25 ∨ port = 465 ∨ port = 587 then f.probeSMTP net ip port
  else if port = 80 ∨ port = 8080 ∨ port = 8000 ∨ port = 8888 then
    f.probeHTTP net ip port false
  else if port = 443 ∨ port = 8443 then f.probeHTTP net ip port true
  else if port = 110 then f.probePOP3 net ip port
  else if port = 143 then f.probeIMAP net ip port
  else if port = 3306 then f.probeMySQL net ip port
  else if port = 5432 then f.probePostgreSQL net ip port
  else if port = 6379 then f.probeRedis net ip port
  else if port = 27017 then f.probeMongoDB net ip port
  else f.probeGeneric net ip port

/-- The post-processing of `Fingerprinter.fingerprintPort`: infer a missing
service name from the banner, then fall back to the port table. -/
def postProcess (port : Nat) (info : ServiceInfo) : ServiceInfo :=
  let info :=
    if info.serviceName = "" ∧ info.banner ≠ "" then
      { info with serviceName := guessServiceFromBanner info.banner port }
    else info
  if info.serviceName = "" then { info with serviceName := getDefaultServiceName port }
  else info

/-- `Fingerprinter.fingerprintPort` (fingerprint.go), split into its
dispatch switch and its post-processing. -/
def Fingerprinter.fingerprintPort (f : Fingerprinter) (net : Network) (ip : String)
    (port : Nat) : ServiceInfo :=
  postProcess port (f.dispatchProbe net ip port)

/-- The service name each dispatched protocol probe presets before
dialing; "" for ports handled by the generic banner grab. -/
def probePresetName (port : Nat) : String :=
  if port = 21 then "ftp"
  else if port = 22 then "ssh"
  else if port = 23 then "telnet"
  else if port = 25 ∨ port = 465 ∨ port = 587 then "smtp"
  else if port = 80 ∨ port = 8080 ∨ port = 8000 ∨ port = 8888 then "http"
  else if port = 443 ∨ port = 8443 then "https"
  else if port = 110 then "pop3"
  else if port = 143 then "imap"
  else if port = 3306 then "mysql"
  else if port = 5432 then "postgresql"
  else if port = 6379 then "redis"
  else if port = 27017 then "mongodb"
  else ""

/-- The service name `fingerprintPort` reports when the dial fails: the
probe's preset name for dispatched ports, the default table otherwise. -/
def dialFailName (port : Nat) : String :=
  if probePresetName port = "" then getDefaultServiceName port else probePresetName port

/-- A network on which every dial fails. -/
def failNet : Network := ⟨fun _ _ => none⟩

theorem probeFTP_dial_none (f : Fingerprinter) (net : Network) (ip : String)
    (port : Nat) (hdial : net.dial ip port = none) :
    f.probeFTP net ip port = { serviceName := "ftp" } := by
  simp only [Fingerprinter.probeFTP, hdial]

theorem probeSSH_dial_none (f : Fingerprinter) (net : Network) (ip : String)
    (port : Nat) (hdial : net.dial ip port = none) :
    f.probeSSH net ip port = { serviceName := "ssh" } := by
  simp only [Fingerprinter.probeSSH, hdial]

theorem probeTelnet_dial_none (f : Fingerprinter) (net : Network) (ip : String)
    (port : Nat) (hdial : net.dial ip port = none) :
    f.probeTelnet net ip port = { serviceName := "telnet" } := by
  simp only [Fingerprinter.probeTelnet, hdial]

theorem probeSMTP_dial_none (f : Fingerprinter) (net : Network) (ip : String)
    (port : Nat) (hdial : net.dial ip port = none) :
    f.probeSMTP net ip port = { serviceName := "smtp" } := by
  simp only [Fingerprinter.probeSMTP, hdial]

theorem probeHTTP_dial_none (f : Fingerprinter) (net : Network) (ip : String)
    (port : Nat) (useTLS : Bool) (hdial : net.dial ip port = none) :
    f.probeHTTP net ip port useTLS =
      { serviceName := if useTLS then "https" else "http" } := by
  simp only [Fingerprinter.probeHTTP, hdial]

theorem probePOP3_dial_none (f : Fingerprinter) (net : Network) (ip : String)
    (port : Nat) (hdial : net.dial ip port = none) :
    f.probePOP3 net ip port = { serviceName := "pop3" } := by
  simp only [Fingerprinter.probePOP3, hdial]

theorem probeIMAP_dial_none (f : Fingerprinter) (net : Network) (ip : String)
    (port : Nat) (hdial : net.dial ip port = none) :
    f.probeIMAP net ip port = { serviceName := "imap" } := by
  simp only [Fingerprinter.probeIMAP, hdial]

theorem probeMySQL_dial_none (f : Fingerprinter) (net : Network) (ip : String)
    (port : Nat) (hdial : net.dial ip port = none) :
    f.probeMySQL net ip port = { serviceName := "mysql" } := by
  simp only [Fingerprinter.probeMySQL, hdial]

theorem probePostgreSQL_dial_none (f : Fingerprinter) (net : Network) (ip : String)
    (port : Nat) (hdial : net.dial ip port = none) :
    f.probePostgreSQL net ip port = { serviceName := "postgresql" } := by
  simp only [Fingerprinter.probePostgreSQL, hdial]

theorem probeRedis_dial_none (f : Fingerprinter) (net : Network) (ip : String)
    (port : Nat) (hdial : net.dial ip port = none) :
    f.probeRedis net ip port = { serviceName := "redis" } := by
  simp only [Fingerprinter.probeRedis, hdial]

theorem probeMongoDB_dial_none (f : Fingerprinter) (net : Network) (ip : String)
    (port : Nat) (hdial : net.dial ip port = none) :
    f.probeMongoDB net ip port = { serviceName := "mongodb" } := by
  simp only [Fingerprinter.probeMongoDB, hdial]

theorem probeGeneric_dial_none (f : Fingerprinter) (net : Network) (ip : String)
    (port : Nat) (hdial : net.dial ip port = none) :
    f.probeGeneric net ip port = {} := by
  simp only [Fingerprinter.probeGeneric, hdial]

theorem dispatchProbe_dial_none (f : Fingerprinter) (net : Network) (ip : String)
    (port : Nat) (hdial : net.dial ip port = none) :
    f.dispatchProbe net ip port = { serviceName := probePresetName port } := by
  rw [Fingerprinter.dispatchProbe, probePresetName]
  by_cases h1 : port = 21
  · rw [if_pos h1, if_pos h1]; exact probeFTP_dial_none f net ip port hdial
  rw [if_neg h1, if_neg h1]
  by_cases h2 : port = 22
  · rw [if_pos h2, if_pos h2]; exact probeSSH_dial_none f net ip port hdial
  rw [if_neg h2, if_neg h2]
  by_cases h3 : port = 23
  · rw [if_pos h3, if_pos h3]; exact probeTelnet_dial_none f net ip port hdial
  rw [if_neg h3, if_neg h3]
  by_cases h4 : port = 25 ∨ port = 465 ∨ port = 587
  · rw [if_pos h4, if_pos h4]; exact probeSMTP_dial_none f net ip port hdial
  rw [if_neg h4, if_neg h4]
  by_cases h5 : port = 80 ∨ port = 8080 ∨ port = 8000 ∨ port = 8888
  · rw [if_pos h5, if_pos h5]; exact probeHTTP_dial_none f net ip port false hdial
  rw [if_neg h5, if_neg h5]
  by_cases h6 : port = 443 ∨ port = 8443
  · rw [if_pos h6, if_pos h6]; exact probeHTTP_dial_none f net ip port true hdial
  rw [if_neg h6, if_neg h6]
  by_cases h7 : port = 110
  · rw [if_pos h7, if_pos h7]; exact probePOP3_dial_none f net ip port hdial
  rw [if_neg h7, if_neg h7]
  by_cases h8 : port = 143
  · rw [if_pos h8, if_pos h8]; exact probeIMAP_dial_none f net ip port hdial
  rw [if_neg h8, if_neg h8]
  by_cases h9 : port = 3306
  · rw [if_pos h9, if_pos h9]; exact probeMySQL_dial_none f net ip port hdial
  rw [if_neg h9, if_neg h9]
  by_cases h10 : port = 5432
  · rw [if_pos h10, if_pos h10]; exact probePostgreSQL_dial_none f net ip port hdial
  rw [if_neg h10, if_neg h10]
  by_cases h11 : port = 6379
  · rw [if_pos h11, if_pos h11]; exact probeRedis_dial_none f net ip port hdial
  rw [if_neg h11, if_neg h11]
  by_cases h12 : port = 27017
  · rw [if_pos h12, if_pos h12]; exact probeMongoDB_dial_none f net ip port hdial
  rw [if_neg h12, if_neg h12]
  exact probeGeneric_dial_none f net ip port hdial

theorem postProcess_preset (port : Nat) (info : ServiceInfo)
    (h : info.serviceName ≠ "") : postProcess port info = info := by
  have h1 : ¬ (info.serviceName = "" ∧ info.banner ≠ "") := fun hc => h hc.1
  rw [postProcess]
  rw [if_neg h1, if_neg h]

theorem postProcess_all_empty (port : Nat) (info : ServiceInfo)
    (hname : info.serviceName = "") (hban : info.banner = "") :
    postProcess port info = { info with serviceName := getDefaultServiceName port } := by
  have h1 : ¬ (info.serviceName = "" ∧ info.banner ≠ "") := fun hc => hc.2 hban
  rw [postProcess]
  rw [if_neg h1, if_pos hname]

theorem fingerprintPort_dial_none (f : Fingerprinter) (net : Network) (ip : String)
    (port : Nat) (hdial : net.dial ip port = none) :
    f.fingerprintPort net ip port = { serviceName := dialFailName port } := by
  rw [Fingerprinter.fingerprintPort, dispatchProbe_dial_none f net ip port hdial,
    dialFailName]
  by_cases hp : probePresetName port = ""
  · rw [if_pos hp, postProcess_all_empty port _ hp rfl]
  · rw [if_neg hp, postProcess_preset port _ hp]

theorem dialFailName_default (port : Nat)
    (hex : port ∉ ([465, 587, 8000, 8080, 8443, 8888] : List Nat)) :
    dialFailName port = getDefaultServiceName port ∨ dialFailName port = "unknown" := by
  simp only [List.mem_cons, List.not_mem_nil, or_false] at hex
  push_neg at hex
  obtain ⟨h465, h587, h8000, h8080, h8443, h8888⟩ := hex
  rw [dialFailName]
  by_cases hp : probePresetName port = ""
  · rw [if_pos hp]; left; rfl
  rw [if_neg hp]
  by_cases h1 : port = 21
  · subst h1; left; decide
  by_cases h2 : port = 22
  · subst h2; left; decide
  by_cases h3 : port = 23
  · subst h3; left; decide
  by_cases h4 : port = 25 ∨ port = 465 ∨ port = 587
  · rcases h4 with h | h | h
    · subst h; left; decide
    · exact absurd h h465
    · exact absurd h h587
  by_cases h5 : port = 80 ∨ port = 8080 ∨ port = 8000 ∨ port = 8888
  · rcases h5 with h | h | h | h
    · subst h; left; decide
    · exact absurd h h8080
    · exact absurd h h8000
    · exact absurd h h8888
  by_cases h6 : port = 443 ∨ port = 8443
  · rcases h6 with h | h
    · subst h; left; decide
    · exact absurd h h8443
  by_cases h7 : port = 110
  · subst h7; left; decide
  by_cases h8 : port = 143
  · subst h8; left; decide
  by_cases h9 : port = 3306
  · subst h9; left; decide
  by_cases h10 : port = 5432
  · subst h10; left; decide
  by_cases h11 : port = 6379
  · subst h11; left; decide
  by_cases h12 : port = 27017
  · subst h12; left; decide
  refine absurd ?_ hp
  rw [probePresetName, if_neg h1, if_neg h2, if_neg h3, if_neg h4, if_neg h5,
    if_neg h6, if_neg h7, if_neg h8, if_neg h9, if_neg h10, if_neg h11, if_neg h12]

/-! ### `FingerprintHost` (both fingerprinters)

Both loops check `ctx.Done()` before each port and return the partial map
on cancellation.  Cancellation is modelled by the iteration index from
which `Done` reads as closed (`none` = not during this run; once closed it
stays closed, which the `k ≤ i` test makes monotone).  The Go result map
`map[int]ServiceInfo` is modelled as a function with pointwise update. -/

def PortMap : Type := Nat → Option ServiceInfo

def pmInsert (m : PortMap) (k : Nat) (v : ServiceInfo) : PortMap :=
  fun q => if q = k then some v else m q

def pmEmpty : PortMap := fun _ => none

def ctxDone : Option Nat → Nat → Bool
  | none, _ => false
  | some k, i => decide (k ≤ i)

def fingerprintLoop (fp : Nat → ServiceInfo) (cancelAt : Option Nat) :
    Nat → List Nat → PortMap → PortMap
  | _, [], acc => acc
  | i, p :: rest, acc =>
    if ctxDone cancelAt i then acc
    else fingerprintLoop fp cancelAt (i + 1) rest (pmInsert acc p (fp p))

def Fingerprinter.FingerprintHost (f : Fingerprinter) (net : Network)
    (cancelAt : Option Nat) (ip : String) (ports : List Nat) : PortMap :=
  fingerprintLoop (fun port => f.fingerprintPort net ip port) cancelAt 0 ports pmEmpty

theorem fingerprintLoop_none (fp : Nat → ServiceInfo) :
    ∀ (ports : List Nat) (i : Nat) (acc : PortMap) (q : Nat),
      fingerprintLoop fp none i ports acc q =
        if q ∈ ports then some (fp q) else acc q := by
  intro ports
  induction ports with
  | nil => intro i acc q; simp [fingerprintLoop]
  | cons p rest ih =>
    intro i acc q
    have hstep : fingerprintLoop fp none i (p :: rest) acc =
        fingerprintLoop fp none (i + 1) rest (pmInsert acc p (fp p)) := by
      rw [fingerprintLoop]
      rfl
    rw [hstep, ih]
    by_cases hq : q ∈ rest
    · rw [if_pos hq, if_pos (List.mem_cons_of_mem p hq)]
    · rw [if_neg hq]
      by_cases hqp : q = p
      · subst hqp
        rw [if_pos (List.mem_cons_self ..)]
        simp [pmInsert]
      · rw [if_neg (by simp [hqp, hq])]
        simp [pmInsert, hqp]

theorem fingerprintLoop_some (fp : Nat → ServiceInfo) (k : Nat) :
    ∀ (ports : List Nat) (i : Nat) (acc : PortMap) (q : Nat),
      fingerprintLoop fp (some k) i ports acc q =
        if q ∈ ports.take (k - i) then some (fp q) else acc q := by
  intro ports
  induction ports with
  | nil => intro i acc q; simp [fingerprintLoop]
  | cons p rest ih =>
    intro i acc q
    by_cases hk : k ≤ i
    · have hc : ctxDone (some k) i = true := by simp [ctxDone, hk]
      have hstep : fingerprintLoop fp (some k) i (p :: rest) acc = acc := by
        rw [fingerprintLoop, hc]
        rfl
      have ht : k - i = 0 := by omega
      rw [hstep, ht]
      simp
    · have hc : ctxDone (some k) i = false := by
        simp only [ctxDone, decide_eq_false_iff_not]
        omega
      have hstep : fingerprintLoop fp (some k) i (p :: rest) acc =
          fingerprintLoop fp (some k) (i + 1) rest (pmInsert acc p (fp p)) := by
        rw [fingerprintLoop, hc]
        rfl
      rw [hstep, ih]
      have ht : k - i = (k - (i + 1)) + 1 := by omega
      rw [ht, List.take_succ_cons]
      by_cases hq : q ∈ rest.take (k - (i + 1))
      · rw [if_pos hq, if_pos (List.mem_cons_of_mem p hq)]
      · rw [if_neg hq]
        by_cases hqp : q = p
        · subst hqp
          rw [if_pos (List.mem_cons_self ..)]
          simp [pmInsert]
        · rw [if_neg (by simp [hqp, hq])]
          simp [pmInsert, hqp]

/-! ### Delegated fingerprinting (ZgrabFingerprinter, zgrab.go)

`runZgrab` spawns the external grabber and JSON-decodes its stdout; it is
abstracted by an oracle giving, per (ip, port) call, either the decoded
reply or `none` for any execution failure (non-zero exit, kill, timeout)
or JSON parse failure — exactly the cases in which `fingerprintPort` falls
back to the native prober.  `json.RawMessage` payloads are modelled by the
inductive `ZgrabRaw`: the module-specific `json.Unmarshal` succeeds
exactly when the payload carries that module's shape. -/

structure ServerHello where
  version : Nat := 0
  cipherSuite : Nat := 0

structure DistinguishedName where
  commonName : List String := []
  organization : List String := []
  organizationalUnit : List String := []
  country : List String := []

structure SubjectAltNames where
  dnsNames : List String := []
  ipAddrs : List String := []

structure ParsedCert where
  subject : Option DistinguishedName := none
  issuer : Option DistinguishedName := none
  serialNumber : String := ""
  validityNotBefore : String := ""
  validityNotAfter : String := ""
  signatureAlgorithm : String := ""
  subjectAltNames : Option SubjectAltNames := none

structure Certificate where
  raw : String := ""
  parsed : Option ParsedCert := none

structure ServerCertificates where
  certificate : Option Certificate := none
  chain : Option (List Certificate) := none

structure HandshakeLog where
  serverCertificates : Option ServerCertificates := none
  serverHello : Option ServerHello := none

structure TLSLog where
  handshakeLog : Option HandshakeLog := none

structure HTTPResponse where
  statusCode : Nat := 0
  statusLine : String := ""
  /-- `none` models a nil `map[string]string`. -/
  headers : Option (List (String × String)) := none
  body : String := ""
  bodySHA256 : String := ""
  contentLength : Int := 0

structure HTTPResult where
  response : Option HTTPResponse := none

structure SMTPResult where
  banner : String := ""
  ehlo : String := ""
  helo : String := ""
  starttls : String := ""
  tls : Option TLSLog := none

structure FTPResult where
  banner : String := ""
  authTLS : String := ""
  tls : Option TLSLog := none

structure SSHServerID where
  raw : String := ""
  version : String := ""
  softwareVersion : String := ""
  comment : String := ""

structure SSHResult where
  serverID : Option SSHServerID := none
  algorithmSelection : Option (List (String × FPVal)) := none

structure MySQLResult where
  protocolVersion : Nat := 0
  serverVersion : String := ""
  connectionID : Nat := 0
  authPluginName : String := ""
  tls : Option TLSLog := none

structure PostgresResult where
  supportedVersions : String := ""
  protocolError : String := ""
  startupError : String := ""
  isSSL : Bool := false
  tls : Option TLSLog := none

structure RedisResult where
  ping : String := ""
  info : String := ""
  authRequired : Bool := false

structure IMAPResult where
  banner : String := ""
  starttls : String := ""
  tls : Option TLSLog := none

structure POP3Result where
  banner : String := ""
  starttls : String := ""
  tls : Option TLSLog := none

structure TelnetResult where
  banner : String := ""

inductive ZgrabRaw
  | http (r : HTTPResult)
  | smtp (r : SMTPResult)
  | ftp (r : FTPResult)
  | ssh (r : SSHResult)
  | mysql (r : MySQLResult)
  | postgres (r : PostgresResult)
  | redis (r : RedisResult)
  | imap (r : IMAPResult)
  | pop3 (r : POP3Result)
  | telnet (r : TelnetResult)
  | bannerKV (r : List (String × FPVal))
  | malformed

structure ZgrabModuleR where
  status : String := ""
  protocol : String := ""
  timestamp : String := ""
  result : ZgrabRaw := .malformed
  error : String := ""

structure ZgrabReply where
  ip : String := ""
  domain : String := ""
  data : List (String × ZgrabModuleR) := []

def asHTTP : ZgrabRaw → Option HTTPResult
  | .http r => some r
  | _ => none

def asSMTP : ZgrabRaw → Option SMTPResult
  | .smtp r => some r
  | _ => none

def asFTP : ZgrabRaw → Option FTPResult
  | .ftp r => some r
  | _ => none

def asSSH : ZgrabRaw → Option SSHResult
  | .ssh r => some r
  | _ => none

def asMySQL : ZgrabRaw → Option MySQLResult
  | .mysql r => some r
  | _ => none

def asPostgres : ZgrabRaw → Option PostgresResult
  | .postgres r => some r
  | _ => none

def asRedis : ZgrabRaw → Option RedisResult
  | .redis r => some r
  | _ => none

def asIMAP : ZgrabRaw → Option IMAPResult
  | .imap r => some r
  | _ => none

def asPOP3 : ZgrabRaw → Option POP3Result
  | .pop3 r => some r
  | _ => none

def asTelnet : ZgrabRaw → Option TelnetResult
  | .telnet r => some r
  | _ => none

def asBannerKV : ZgrabRaw → Option (List (String × FPVal))
  | .bannerKV r => some r
  | _ => none

/-- `getZgrabModule` (zgrab.go). -/
def getZgrabModule (port : Nat) : String :=
  if port = 21 then "ftp"
  else if port = 22 then "ssh"
  else if port = 23 then "telnet"
  else if port = 25 ∨ port = 465 ∨ port = 587 then "smtp"
  else if port = 80 ∨ port = 8080 ∨ port = 8000 ∨ port = 8888 then "http"
  else if port = 110 ∨ port = 995 then "pop3"
  else if port = 143 ∨ port = 993 then "imap"
  else if port = 443 ∨ port = 8443 then "http"
  else if port = 3306 then "mysql"
  else if port = 5432 then "postgres"
  else if port = 6379 then "redis"
  else if port = 27017 then "mongodb"
  else "banner"

/-- The zgrab2 command line built by `fingerprintPort` (module-specific
flags). -/
def buildZgrabArgs (port : Nat) : List String :=
  let module := getZgrabModule port
  let args := [module, "-p", toString port]
  if module = "http" then
    (if port = 443 ∨ port = 8443 then args ++ ["--use-https"] else args) ++
      ["--max-redirects", "3"]
  else if module = "smtp" then
    args ++ ["--send-ehlo", "--ehlo-domain", "scanner.local"] ++
      (if port = 465 then ["--smtps"] else ["--starttls"])
  else if module = "ftp" then args ++ ["--authtls"]
  else if module = "imap" then
    args ++ (if port = 993 then ["--imaps"] else ["--starttls"])
  else if module = "pop3" then
    args ++ (if port = 995 then ["--pop3s"] else ["--starttls"])
  else if module = "banner" then
    args ++ ["--probe", "\\x00", "--max-read-size", "4096"]
  else args

/-- `extractTitle` (zgrab.go): index-based, case-insensitive search on the
lowered text, slicing the original. -/
def extractTitle (html : String) : String :=
  match findAfterCI html.data "<title>".data with
  | none => ""
  | some rest =>
    match indexOfCI rest "</title>".data with
    | none => ""
    | some e => goTrimSpaceS ⟨rest.take e⟩

/-- `parseEHLOCapabilities` (zgrab.go). -/
def parseEHLOCapabilities (ehlo : String) : List String :=
  (ehlo.splitOn "\n").foldl
    (fun caps line =>
      let line := goTrimSpaceS line
      if line.length > 4 ∧ (line.data.get? 3 = some '-' ∨ line.data.get? 3 = some ' ')
      then
        let capStr := goTrimSpaceS ⟨line.data.drop 4⟩
        if capStr ≠ "" ∧ ¬ goStartsWith (goToLower capStr) "250"
        then caps ++ [capStr] else caps
      else caps)
    []

/-- `extractRedisVersion` (zgrab.go): line-based scan for the
`redis_version:` line, first match wins. -/
def extractRedisVersion (info : String) : String :=
  (info.splitOn "\n").foldl
    (fun acc line =>
      if acc = "" ∧ goStartsWith line "redis_version:" then ⟨line.data.drop 14⟩
      else acc)
    ""

/-- `extractTLSInfo` (zgrab.go). -/
def extractTLSInfo (info : ServiceInfo) (tlsLog : Option TLSLog) : ServiceInfo :=
  match tlsLog with
  | none => info
  | some t =>
    match t.handshakeLog with
    | none => info
    | some hl =>
      let tlsInfo : List (String × FPVal) :=
        match hl.serverHello with
        | some sh => [("version", FPVal.n sh.version), ("cipher_suite", FPVal.n sh.cipherSuite)]
        | none => []
      let tlsInfo :=
        match hl.serverCertificates with
        | none => tlsInfo
        | some sc =>
          let tlsInfo :=
            match sc.certificate with
            | none => tlsInfo
            | some cert =>
              match cert.parsed with
              | none => tlsInfo
              | some p =>
                let certInfo : List (String × FPVal) := []
                let certInfo :=
                  match p.subject with
                  | some dn =>
                    match dn.commonName with
                    | cn :: _ => certInfo ++ [("subject_cn", FPVal.s cn)]
                    | [] => certInfo
                  | none => certInfo
                let certInfo :=
                  match p.issuer with
                  | some dn =>
                    match dn.commonName with
                    | cn :: _ => certInfo ++ [("issuer_cn", FPVal.s cn)]
                    | [] => certInfo
                  | none => certInfo
                let certInfo :=
                  if p.validityNotBefore ≠ "" then
                    certInfo ++ [("valid_from", FPVal.s p.validityNotBefore)]
                  else certInfo
                let certInfo :=
                  if p.validityNotAfter ≠ "" then
                    certInfo ++ [("valid_until", FPVal.s p.validityNotAfter)]
                  else certInfo
                let certInfo :=
                  match p.subjectAltNames with
                  | some san =>
                    if san.dnsNames.length > 0 then
                      certInfo ++ [("san_dns", FPVal.strs san.dnsNames)]
                    else certInfo
                  | none => certInfo
                let certInfo :=
                  if p.signatureAlgorithm ≠ "" then
                    certInfo ++ [("signature_algorithm", FPVal.s p.signatureAlgorithm)]
                  else certInfo
                tlsInfo ++ [("certificate", FPVal.obj certInfo)]
          match sc.chain with
          | some chain => tlsInfo ++ [("chain_length", FPVal.n chain.length)]
          | none => tlsInfo
      if tlsInfo.length > 0 then
        { info with fingerprint := info.fingerprint ++ [("tls", FPVal.obj tlsInfo)] }
      else info

/-- `parseZgrabResult` (zgrab.go).  The Go `switch module` has no
"mongodb" branch, so that module yields only the status/protocol entries;
a failed module-specific unmarshal leaves `info` as initialised at that
point, exactly as the Go `if err == nil` guards do. -/
def parseZgrabResult (result : ZgrabReply) (module : String) (port : Nat) :
    ServiceInfo :=
  let info : ServiceInfo := { fingerprint := [] }
  match List.lookup module result.data with
  | none => info
  | some modResult =>
    if modResult.status ≠ "success" then info
    else
      let info := { info with fingerprint :=
        [("zgrab_status", FPVal.s modResult.status), ("protocol", FPVal.s module)] }
      if module = "http" then
        match asHTTP modResult.result with
        | none => info
        | some httpRes =>
          match httpRes.response with
          | none => info
          | some resp =>
            let info := { info with
              serviceName := if port = 443 ∨ port = 8443 then "https" else "http" }
            let info :=
              if resp.statusCode > 0 then
                { info with fingerprint :=
                    info.fingerprint ++ [("status_code", FPVal.n resp.statusCode)] }
              else info
            let info :=
              if resp.statusLine ≠ "" then { info with banner := resp.statusLine }
              else info
            let info :=
              match resp.headers with
              | some hs =>
                match List.lookup "server" hs with
                | some server => { info with serviceVersion := server }
                | none => info
              | none => info
            let info :=
              match resp.headers with
              | some hs =>
                { info with fingerprint := info.fingerprint ++ [("headers", FPVal.pairs hs)] }
              | none => info
            if resp.body ≠ "" then
              let title := extractTitle resp.body
              if title ≠ "" then
                { info with fingerprint := info.fingerprint ++ [("title", FPVal.s title)] }
              else info
            else info
      else if module = "smtp" then
        match asSMTP modResult.result with
        | none => info
        | some smtpRes =>
          let info := { info with serviceName := "smtp" }
          let info :=
            if smtpRes.banner ≠ "" then
              { info with
                banner := sanitizeBanner smtpRes.banner,
                serviceVersion := extractVersion smtpRes.banner }
            else info
          let info :=
            if smtpRes.ehlo ≠ "" then
              let info := { info with fingerprint :=
                info.fingerprint ++ [("ehlo", FPVal.s smtpRes.ehlo)] }
              let caps := parseEHLOCapabilities smtpRes.ehlo
              if caps.length > 0 then
                { info with fingerprint :=
                    info.fingerprint ++ [("capabilities", FPVal.strs caps)] }
              else info
            else info
          let info :=
            if smtpRes.starttls ≠ "" then
              { info with fingerprint := info.fingerprint ++ [("starttls", FPVal.b true)] }
            else info
          extractTLSInfo info smtpRes.tls
      else if module = "ftp" then
        match asFTP modResult.result with
        | none => info
        | some ftpRes =>
          let info := { info with serviceName := "ftp" }
          let info :=
            if ftpRes.banner ≠ "" then
              { info with
                banner := sanitizeBanner ftpRes.banner,
                serviceVersion := extractVersion ftpRes.banner }
            else info
          let info :=
            if ftpRes.authTLS ≠ "" then
              { info with fingerprint := info.fingerprint ++ [("auth_tls", FPVal.b true)] }
            else info
          extractTLSInfo info ftpRes.tls
      else if module = "ssh" then
        match asSSH modResult.result with
        | none => info
        | some sshRes =>
          let info := { info with serviceName := "ssh" }
          let info :=
            match sshRes.serverID with
            | some sid =>
              let info :=
                if sid.raw ≠ "" then { info with banner := sanitizeBanner sid.raw }
                else info
              let info :=
                if sid.softwareVersion ≠ "" then
                  { info with serviceVersion := sid.softwareVersion }
                else info
              if sid.version ≠ "" then
                { info with fingerprint :=
                    info.fingerprint ++ [("protocol_version", FPVal.s sid.version)] }
              else info
            | none => info
          match sshRes.algorithmSelection with
          | some algos =>
            { info with fingerprint := info.fingerprint ++ [("algorithms", FPVal.obj algos)] }
          | none => info
      else if module = "mysql" then
        match asMySQL modResult.result with
        | none => info
        | some mysqlRes =>
          let info := { info with serviceName := "mysql" }
          let info :=
            if mysqlRes.serverVersion ≠ "" then
              { info with
                serviceVersion := mysqlRes.serverVersion,
                banner := "MySQL " ++ mysqlRes.serverVersion }
            else info
          let info :=
            if mysqlRes.protocolVersion > 0 then
              { info with fingerprint :=
                  info.fingerprint ++ [("protocol_version", FPVal.n mysqlRes.protocolVersion)] }
            else info
          let info :=
            if mysqlRes.authPluginName ≠ "" then
              { info with fingerprint :=
                  info.fingerprint ++ [("auth_plugin", FPVal.s mysqlRes.authPluginName)] }
            else info
          extractTLSInfo info mysqlRes.tls
      else if module = "postgres" then
        match asPostgres modResult.result with
        | none => info
        | some pgRes =>
          let info := { info with serviceName := "postgresql" }
          let info :=
            if pgRes.isSSL then
              { info with
                banner := "PostgreSQL (SSL supported)",
                fingerprint := info.fingerprint ++ [("ssl_supported", FPVal.b true)] }
            else { info with banner := "PostgreSQL" }
          let info :=
            if pgRes.supportedVersions ≠ "" then
              { info with fingerprint :=
                  info.fingerprint ++ [("supported_versions", FPVal.s pgRes.supportedVersions)] }
            else info
          extractTLSInfo info pgRes.tls
      else if module = "redis" then
        match asRedis modResult.result with
        | none => info
        | some redisRes =>
          let info := { info with serviceName := "redis" }
          let info :=
            if redisRes.authRequired then
              { info with
                banner := "Redis (authentication required)",
                fingerprint := info.fingerprint ++ [("auth_required", FPVal.b true)] }
            else { info with banner := "Redis" }
          if redisRes.info ≠ "" then
            let version := extractRedisVersion redisRes.info
            if version ≠ "" then { info with serviceVersion := version } else info
          else info
      else if module = "imap" then
        match asIMAP modResult.result with
        | none => info
        | some imapRes =>
          let info := { info with serviceName := "imap" }
          let info :=
            if imapRes.banner ≠ "" then
              { info with
                banner := sanitizeBanner imapRes.banner,
                serviceVersion := extractVersion imapRes.banner }
            else info
          let info :=
            if imapRes.starttls ≠ "" then
              { info with fingerprint := info.fingerprint ++ [("starttls", FPVal.b true)] }
            else info
          extractTLSInfo info imapRes.tls
      else if module = "pop3" then
        match asPOP3 modResult.result with
        | none => info
        | some pop3Res =>
          let info := { info with serviceName := "pop3" }
          let info :=
            if pop3Res.banner ≠ "" then
              { info with
                banner := sanitizeBanner pop3Res.banner,
                serviceVersion := extractVersion pop3Res.banner }
            else info
          let info :=
            if pop3Res.starttls ≠ "" then
              { info with fingerprint := info.fingerprint ++ [("starttls", FPVal.b true)] }
            else info
          extractTLSInfo info pop3Res.tls
      else if module = "telnet" then
        match asTelnet modResult.result with
        | none => info
        | some telnetRes =>
          let info := { info with serviceName := "telnet" }
          if telnetRes.banner ≠ "" then
            { info with banner := sanitizeBanner telnetRes.banner }
          else info
      else if module = "banner" then
        match asBannerKV modResult.result with
        | none => info
        | some bannerRes =>
          match List.lookup "banner" bannerRes with
          | some (FPVal.s b) =>
            if b ≠ "" then
              { info with
                banner := sanitizeBanner b,
                serviceName := guessServiceFromBanner b port }
            else info
          | _ => info
      else info

structure ZgrabFingerprinter where
  timeout : Nat
  maxBanner : Nat
  fallback : Fingerprinter

def NewZgrabFingerprinter : ZgrabFingerprinter := ⟨10, 4096, NewFingerprinter⟩

/-- The outcome of `runZgrab` per call: `none` on execution or parse
failure. -/
def ZgrabOracle : Type := String → Nat → Option ZgrabReply

/-- `ZgrabFingerprinter.fingerprintPort` (zgrab.go): delegate to the
external grabber; on any failure fall back to the native prober for this
one (ip, port); otherwise parse, defaulting a missing service name. -/
def ZgrabFingerprinter.fingerprintPort (z : ZgrabFingerprinter) (zor : ZgrabOracle)
    (net : Network) (ip : String) (port : Nat) : ServiceInfo :=
  match zor ip port with
  | none => z.fallback.fingerprintPort net ip port
  | some result =>
    let info := parseZgrabResult result (getZgrabModule port) port
    if info.serviceName = "" then
      { info with serviceName := getDefaultServiceName port }
    else info

def ZgrabFingerprinter.FingerprintHost (z : ZgrabFingerprinter) (zor : ZgrabOracle)
    (net : Network) (cancelAt : Option Nat) (ip : String) (ports : List Nat) :
    PortMap :=
  fingerprintLoop (fun port => z.fingerprintPort zor net ip port) cancelAt 0 ports
    pmEmpty

/-- An oracle on which every external grabber invocation fails. -/
def noZgrab : ZgrabOracle := fun _ _ => none

theorem host_keys (fp : Nat → ServiceInfo) (ports : List Nat) (q : Nat) :
    (fingerprintLoop fp none 0 ports pmEmpty q).isSome ↔ q ∈ ports := by
  rw [fingerprintLoop_none]
  by_cases hq : q ∈ ports
  · simp [hq]
  · simp [hq, pmEmpty]

theorem host_val (fp : Nat → ServiceInfo) (ports : List Nat) (q : Nat)
    (h : q ∈ ports) : fingerprintLoop fp none 0 ports pmEmpty q = some (fp q) := by
  rw [fingerprintLoop_none, if_pos h]

theorem host_keys_cancel (fp : Nat → ServiceInfo) (k : Nat) (ports : List Nat)
    (q : Nat) :
    (fingerprintLoop fp (some k) 0 ports pmEmpty q).isSome ↔ q ∈ ports.take k := by
  rw [fingerprintLoop_some, Nat.sub_zero]
  by_cases hq : q ∈ ports.take k
  · simp [hq]
  · simp [hq, pmEmpty]

end NetworkScanner

/-- C2 (amended): for every valid IPv4 CIDR `base/p` with 1 ≤ p ≤ 30 (so
the masked block has N = 2^(32-p) > 2 addresses), `expandCIDR` returns
exactly the N − 2 addresses of the masked block in strictly increasing
numeric order, omitting exactly its first address (the network address) and
its last (the broadcast address).  The amendment restricts the mask length
to p ≥ 1: see `C2_counterexample` — at p = 0 the Go iteration never exits. -/
theorem C2_expander_drops_ends (base p : Nat) (hb : base < 2 ^ 32)
    (hp1 : 1 ≤ p) (hp30 : p ≤ 30) :
    NetworkScanner.expandCIDR base p =
      some (List.range' ((base &&& NetworkScanner.maskOf p) + 1) (2 ^ (32 - p) - 2)) ∧
    (List.range' ((base &&& NetworkScanner.maskOf p) + 1) (2 ^ (32 - p) - 2)).length =
      2 ^ (32 - p) - 2 ∧
    List.Pairwise (· < ·)
      (List.range' ((base &&& NetworkScanner.maskOf p) + 1) (2 ^ (32 - p) - 2)) ∧
    (base &&& NetworkScanner.maskOf p) ∉
      List.range' ((base &&& NetworkScanner.maskOf p) + 1) (2 ^ (32 - p) - 2) ∧
    ((base &&& NetworkScanner.maskOf p) + 2 ^ (32 - p) - 1) ∉
      List.range' ((base &&& NetworkScanner.maskOf p) + 1) (2 ^ (32 - p) - 2) ∧
    List.range' ((base &&& NetworkScanner.maskOf p) + 1) (2 ^ (32 - p) - 2) =
      ((List.range' (base &&& NetworkScanner.maskOf p) (2 ^ (32 - p))).drop 1).dropLast := by
  have hN : 2 ≤ 32 - p := by omega
  have hN4 : 4 ≤ 2 ^ (32 - p) :=
    le_trans (by norm_num) (Nat.pow_le_pow_right (by norm_num) hN)
  have hdrop : ((List.range' (base &&& NetworkScanner.maskOf p) (2 ^ (32 - p))).drop 1).dropLast =
      List.range' ((base &&& NetworkScanner.maskOf p) + 1) (2 ^ (32 - p) - 2) := by
    have h1 : List.range' (base &&& NetworkScanner.maskOf p) (2 ^ (32 - p)) =
        (base &&& NetworkScanner.maskOf p) ::
          List.range' ((base &&& NetworkScanner.maskOf p) + 1) (2 ^ (32 - p) - 1) := by
      rw [← List.range'_succ]
      congr 1
      omega
    rw [h1, List.drop_one, List.tail_cons]
    have h2 : List.range' ((base &&& NetworkScanner.maskOf p) + 1) (2 ^ (32 - p) - 1) =
        List.range' ((base &&& NetworkScanner.maskOf p) + 1) (2 ^ (32 - p) - 2) ++
          [(base &&& NetworkScanner.maskOf p) + 1 + 1 * (2 ^ (32 - p) - 2)] := by
      rw [← List.range'_concat]
      congr 1
      omega
    rw [h2, List.dropLast_concat]
  refine ⟨?_, by simp, List.pairwise_lt_range' _ _, ?_, ?_, hdrop.symm⟩
  · rw [NetworkScanner.expandCIDR,
      NetworkScanner.expandLoop_full base p hb hp1 (by omega), Option.map_some']
    rw [if_pos (by simp; omega), hdrop]
  · rw [List.mem_range'_1]
    omega
  · rw [List.mem_range'_1]
    omega

/-- Witness for C2 (amended), at the CIDR 192.168.1.0/24. -/
theorem C2_witness :
    NetworkScanner.expandCIDR 3232235776 24 =
      some (List.range' ((3232235776 &&& NetworkScanner.maskOf 24) + 1) (2 ^ (32 - 24) - 2)) :=
  (C2_expander_drops_ends 3232235776 24 (by norm_num) (by norm_num) (by norm_num)).1

/-- C2 counterexample: the claim quantifies over every valid CIDR whose
block has more than two addresses, which includes 0.0.0.0/0 (N = 2^32).
There the mask is zero, `Contains` always holds, and the Go loop never
exits (`expandLoop_mask_zero` shows no amount of fuel finishes it), so the
expander does not return the claimed N − 2 targets. -/
theorem C2_counterexample : NetworkScanner.expandCIDR 0 0 = none := by
  rw [NetworkScanner.expandCIDR]
  simp only [NetworkScanner.maskOf, Nat.sub_zero, Nat.sub_self, Nat.and_zero]
  rw [NetworkScanner.expandLoop_mask_zero, Option.map_none']

/-- C9: a valid IPv4 CIDR expanding to at most two addresses keeps every
address of the block: a /32 yields exactly its single address and a /31
yields both addresses of its block, none dropped. -/
theorem C9_small_blocks_kept (base : Nat) (hb : base < 2 ^ 32) :
    NetworkScanner.expandCIDR base 32 = some [base] ∧
    NetworkScanner.expandCIDR base 31 =
      some [base &&& NetworkScanner.maskOf 31, (base &&& NetworkScanner.maskOf 31) + 1] := by
  constructor
  · have hmask : base &&& NetworkScanner.maskOf 32 = base := by
      have h1 : NetworkScanner.maskOf 32 = 2 ^ 32 - 1 := by
        rw [NetworkScanner.maskOf]; norm_num
      rw [h1, Nat.and_pow_two_sub_one_eq_mod, Nat.mod_eq_of_lt hb]
    rw [NetworkScanner.expandCIDR,
      NetworkScanner.expandLoop_full base 32 hb (by norm_num) le_rfl, hmask,
      Option.map_some']
    norm_num [List.range']
  · rw [NetworkScanner.expandCIDR,
      NetworkScanner.expandLoop_full base 31 hb (by norm_num) (by norm_num),
      Option.map_some']
    norm_num [List.range']

/-- Witness for C9, at the CIDR 10.0.0.5/32 (address 167772165). -/
theorem C9_witness : NetworkScanner.expandCIDR 167772165 32 = some [167772165] :=
  (C9_small_blocks_kept 167772165 (by norm_num)).1

/-- C7 (amended): with the all-ports sentinel, both backends probe exactly
TCP ports 1 through 65535 (65535 ports; port 0 is not probed) of the
configured networks, and the fixed 1000-port batching has no semantic
effect: both all-port scans compute the same per-address result map as a
single one-by-one pass over ports 1..65535. -/
theorem C7_all_ports_batching (openHosts : Nat → List String) :
    (NetworkScanner.portBatches 1).flatten = List.range' 1 65535 ∧
    (∀ ip, NetworkScanner.scanAllPortsTCP openHosts ip =
      NetworkScanner.scanPortsFun openHosts (List.range' 1 65535) ip) ∧
    (∀ ip, NetworkScanner.scanNetworkAllPorts openHosts ip =
      NetworkScanner.scanPortsFun openHosts (List.range' 1 65535) ip) := by
  refine ⟨NetworkScanner.portBatches_one_join, fun ip => ?_, fun ip => ?_⟩
  · have h := NetworkScanner.scanAllPortsTCP_batches openHosts
      (NetworkScanner.portBatches 1) NetworkScanner.emptyHosts ip
    rw [NetworkScanner.portBatches_one_join] at h
    exact h.trans (List.nil_append _)
  · rw [NetworkScanner.scanNetworkAllPorts,
      ← List.foldl_flatten (NetworkScanner.scanPortStep openHosts),
      NetworkScanner.portBatches_one_join]
    rfl

/-- C7 counterexample: the all-ports sentinel does not probe 65536 ports —
the batched loops cover exactly the 65535 ports 1..65535, and port 0 is
never probed. -/
theorem C7_counterexample :
    (NetworkScanner.portBatches 1).flatten.length = 65535 ∧
    (0 : Nat) ∉ (NetworkScanner.portBatches 1).flatten := by
  rw [NetworkScanner.portBatches_one_join]
  refine ⟨by simp, ?_⟩
  simp [List.mem_range'_1]

/-- C5 (amended): for a delegated (network, port) scan whose external
process exits non-zero, provided the run's context has not been cancelled
or expired, the operation returns an error if and only if zero addresses
were parsed from its output and the process emitted diagnostic text on
stderr; in every other such non-zero-exit case the addresses parsed so far
are returned as a success.  In the fail-hard case the error carries the
stderr text and the (empty) result list is dropped.  When the context was
cancelled the code instead forwards the context's error even alongside
parsed results and empty stderr — see `C5_counterexample`. -/
theorem C5_zmap_failure_policy (rows : List (Option (List String))) (port : Nat)
    (stderr : String) :
    ((NetworkScanner.scanNetworkPort rows port true false stderr).2 ≠ none ↔
      NetworkScanner.parseZmapRows rows port = [] ∧ stderr ≠ "") ∧
    (¬ (NetworkScanner.parseZmapRows rows port = [] ∧ stderr ≠ "") →
      NetworkScanner.scanNetworkPort rows port true false stderr =
        (NetworkScanner.parseZmapRows rows port, none)) ∧
    (NetworkScanner.parseZmapRows rows port = [] → stderr ≠ "" →
      NetworkScanner.scanNetworkPort rows port true false stderr =
        ([], some (NetworkScanner.ScanErr.zmapFailed stderr))) := by
  by_cases hc : (NetworkScanner.parseZmapRows rows port).length = 0 ∧ stderr ≠ ""
  · have hnil : NetworkScanner.parseZmapRows rows port = [] :=
      List.length_eq_zero.1 hc.1
    rw [NetworkScanner.scanNetworkPort_exit_noctx, if_pos hc]
    refine ⟨?_, ?_, ?_⟩
    · simp [hnil, hc.2]
    · intro hcon; exact absurd ⟨hnil, hc.2⟩ hcon
    · intro _ _; rfl
  · have hc' : ¬ (NetworkScanner.parseZmapRows rows port = [] ∧ stderr ≠ "") := by
      intro hcon
      exact hc ⟨by rw [hcon.1]; rfl, hcon.2⟩
    rw [NetworkScanner.scanNetworkPort_exit_noctx, if_neg hc]
    refine ⟨?_, ?_, ?_⟩
    · simp [hc']
    · intro _; rfl
    · intro h1 h2; exact absurd ⟨h1, h2⟩ hc'

/-- Witness for C5: a run with no parsed rows and diagnostic stderr fails
hard with the stderr text. -/
theorem C5_witness :
    NetworkScanner.scanNetworkPort [some ["saddr"]] 80 true false "permission denied" =
      ([], some (NetworkScanner.ScanErr.zmapFailed "permission denied")) :=
  (C5_zmap_failure_policy [some ["saddr"]] 80 "permission denied").2.2
    (by decide) (by decide)

/-- C5 counterexample: a non-zero exit caused by context cancellation
returns an error (`ctx.Err()`) even though an address was parsed and
stderr is empty, contradicting the claimed "error iff zero addresses and
diagnostic text" and the claimed success with partial results. -/
theorem C5_counterexample :
    (NetworkScanner.scanNetworkPort [some ["saddr"], some ["10.0.0.7"]] 80
        true true "").2 ≠ none ∧
    NetworkScanner.parseZmapRows [some ["saddr"], some ["10.0.0.7"]] 80 ≠ [] := by
  decide

/-- C1: at most one ScanRun is in progress at any time — in every reachable
guard state at most one scan body is active; a start request while
`isScanning` yields the already-running outcome and leaves the state
unchanged (no second run is started); and the completion epilogue returns
the guard to idle and records the completion timestamp. -/
theorem C1_concurrency_guard :
    (∀ s : NetworkScanner.GuardState, NetworkScanner.GuardReachable s →
      s.active ≤ 1) ∧
    (∀ s : NetworkScanner.GuardState, s.isScanning = true →
      NetworkScanner.runScanStart s = (s, NetworkScanner.StartOutcome.alreadyRunning)) ∧
    (∀ (s : NetworkScanner.GuardState) (now : Nat),
      (NetworkScanner.runScanFinish s now).isScanning = false ∧
      (NetworkScanner.runScanFinish s now).lastScanTime = some now) := by
  refine ⟨?_, ?_, ?_⟩
  · intro s h
    rw [NetworkScanner.guard_invariant s h]
    split <;> omega
  · intro s h
    simp [NetworkScanner.runScanStart, h]
  · intro s now
    exact ⟨rfl, rfl⟩

/-- Witness for C1: a start request in a running state is rejected
unchanged, and the initial state trivially satisfies the invariant. -/
theorem C1_witness :
    NetworkScanner.runScanStart ⟨true, 1, none⟩ =
      (⟨true, 1, none⟩, NetworkScanner.StartOutcome.alreadyRunning) ∧
    (⟨false, 0, none⟩ : NetworkScanner.GuardState).active ≤ 1 :=
  ⟨C1_concurrency_guard.2.1 ⟨true, 1, none⟩ rfl,
   C1_concurrency_guard.1 ⟨false, 0, none⟩ NetworkScanner.GuardReachable.init⟩

/-- C8: for every rate limit R, in every reachable state of the admission
gate at most R connection attempts are in flight; every step that admits a
new attempt is gated on `inflight < R` (acquire before dialing); and from
any state with an attempt in flight the gate can be released — the two
completion steps (success and failure) both decrement the in-flight count
and record the release. -/
theorem C8_admission_gate :
    (∀ (rate targets : Nat) (s : NetworkScanner.PoolState),
      NetworkScanner.PoolReachable rate targets s → s.inflight ≤ rate) ∧
    (∀ (rate : Nat) (s s' : NetworkScanner.PoolState),
      NetworkScanner.PoolStep rate s s' → s.inflight < s'.inflight →
        s.inflight < rate ∧ s'.inflight = s.inflight + 1) ∧
    (∀ (rate : Nat) (s s' : NetworkScanner.PoolState),
      NetworkScanner.PoolStep rate s s' → s'.inflight < s.inflight →
        s'.released = s.released + 1) ∧
    (∀ (rate : Nat) (s : NetworkScanner.PoolState), 1 ≤ s.inflight →
      NetworkScanner.PoolStep rate s ⟨s.pending, s.inflight - 1, s.released + 1⟩) := by
  refine ⟨NetworkScanner.pool_invariant, ?_, ?_, ?_⟩
  · intro rate s s' hstep hlt
    cases hstep with
    | acquire hp hr => exact ⟨hr, rfl⟩
    | finishOk hi => simp at hlt; omega
    | finishFail hi => simp at hlt; omega
  · intro rate s s' hstep hlt
    cases hstep with
    | acquire hp hr => simp at hlt
    | finishOk hi => rfl
    | finishFail hi => rfl
  · intro rate s hi
    exact NetworkScanner.PoolStep.finishOk s hi

/-- C3 (amended): on every dial failure, native fingerprinting returns
normally with banner, service_version and fingerprint_data empty, and with
service_name equal to the name the dispatched protocol probe presets
(`dialFailName`); for every port outside {465, 587, 8000, 8080, 8443,
8888} this equals the default-service-name-table entry or "unknown", but
on those six alternate ports the preset protocol name ("smtp", "http",
"https") differs from the table entry. -/
theorem C3_dial_failure (f : NetworkScanner.Fingerprinter)
    (net : NetworkScanner.Network) (ip : String) (port : Nat)
    (hdial : net.dial ip port = none) :
    f.fingerprintPort net ip port = { serviceName := NetworkScanner.dialFailName port } ∧
    (f.fingerprintPort net ip port).banner = "" ∧
    (f.fingerprintPort net ip port).serviceVersion = "" ∧
    (f.fingerprintPort net ip port).fingerprint = [] ∧
    (port ∉ ([465, 587, 8000, 8080, 8443, 8888] : List Nat) →
      (f.fingerprintPort net ip port).serviceName =
        NetworkScanner.getDefaultServiceName port ∨
      (f.fingerprintPort net ip port).serviceName = "unknown") := by
  have h := NetworkScanner.fingerprintPort_dial_none f net ip port hdial
  refine ⟨h, by rw [h], by rw [h], by rw [h], fun hex => ?_⟩
  rw [h]
  exact NetworkScanner.dialFailName_default port hex

/-- Witness for C3: fingerprinting port 22 on a network whose dials all
fail yields the bare preset name. -/
theorem C3_witness :
    NetworkScanner.NewFingerprinter.fingerprintPort NetworkScanner.failNet
        "192.0.2.1" 22 =
      { serviceName := NetworkScanner.dialFailName 22 } :=
  (C3_dial_failure NetworkScanner.NewFingerprinter NetworkScanner.failNet
    "192.0.2.1" 22 rfl).1

/-- C3 counterexample: on port 8080 a dial failure yields service_name
"http" (preset by the HTTP probe), which is neither the default table's
entry "http-proxy" nor "unknown", so the claim's service-name condition
fails as stated. -/
theorem C3_counterexample :
    (NetworkScanner.NewFingerprinter.fingerprintPort NetworkScanner.failNet
        "192.0.2.1" 8080).serviceName = "http" ∧
    NetworkScanner.getDefaultServiceName 8080 = "http-proxy" ∧
    ¬ ((NetworkScanner.NewFingerprinter.fingerprintPort NetworkScanner.failNet
          "192.0.2.1" 8080).serviceName =
        NetworkScanner.getDefaultServiceName 8080 ∨
       (NetworkScanner.NewFingerprinter.fingerprintPort NetworkScanner.failNet
          "192.0.2.1" 8080).serviceName = "unknown") ∧
    (NetworkScanner.NewFingerprinter.fingerprintPort NetworkScanner.failNet
        "192.0.2.1" 8080).banner = "" ∧
    (NetworkScanner.NewFingerprinter.fingerprintPort NetworkScanner.failNet
        "192.0.2.1" 8080).serviceVersion = "" ∧
    (NetworkScanner.NewFingerprinter.fingerprintPort NetworkScanner.failNet
        "192.0.2.1" 8080).fingerprint.length = 0 := by
  decide

/-- C4: whenever the external grabber invocation for an (ip, port) fails
(execution or parse failure, `zor ip port = none`), the delegated
fingerprinter returns exactly the ServiceInfo the native prober alone
would return for that (ip, port); and the fallback is per-call — within a
`FingerprintHost` run over any port list, this port maps to the native
result regardless of the oracle's behaviour on other ports. -/
theorem C4_zgrab_fallback (z : NetworkScanner.ZgrabFingerprinter)
    (zor : NetworkScanner.ZgrabOracle) (net : NetworkScanner.Network)
    (ip : String) (port : Nat) (hfail : zor ip port = none) :
    z.fingerprintPort zor net ip port = z.fallback.fingerprintPort net ip port ∧
    (∀ ports : List Nat, port ∈ ports →
      z.FingerprintHost zor net none ip ports port =
        some (z.fallback.fingerprintPort net ip port)) := by
  have h1 : z.fingerprintPort zor net ip port =
      z.fallback.fingerprintPort net ip port := by
    rw [NetworkScanner.ZgrabFingerprinter.fingerprintPort, hfail]
  refine ⟨h1, fun ports hmem => ?_⟩
  have h2 := NetworkScanner.host_val
    (fun p => z.fingerprintPort zor net ip p) ports port hmem
  exact h2.trans (congrArg some h1)

/-- Witness for C4: with an oracle on which every grabber call fails, the
delegated fingerprinter on port 22 equals its native fallback. -/
theorem C4_witness :
    NetworkScanner.NewZgrabFingerprinter.fingerprintPort NetworkScanner.noZgrab
        NetworkScanner.failNet "192.0.2.1" 22 =
      NetworkScanner.NewZgrabFingerprinter.fallback.fingerprintPort
        NetworkScanner.failNet "192.0.2.1" 22 :=
  (C4_zgrab_fallback NetworkScanner.NewZgrabFingerprinter NetworkScanner.noZgrab
    NetworkScanner.failNet "192.0.2.1" 22 rfl).1

/-- C10: without cancellation, `FingerprintHost` of both fingerprinters
returns a map whose key set is exactly the set of ports in the input list,
with the per-port ServiceInfo as value; when the context is cancelled from
iteration k on, the keys are exactly the set of ports in the length-k
prefix of the input list. -/
theorem C10_fingerprint_host_keys (f : NetworkScanner.Fingerprinter)
    (z : NetworkScanner.ZgrabFingerprinter) (zor : NetworkScanner.ZgrabOracle)
    (net : NetworkScanner.Network) (ip : String) (ports : List Nat) :
    (∀ q, (f.FingerprintHost net none ip ports q).isSome ↔ q ∈ ports) ∧
    (∀ q ∈ ports, f.FingerprintHost net none ip ports q =
      some (f.fingerprintPort net ip q)) ∧
    (∀ k q, (f.FingerprintHost net (some k) ip ports q).isSome ↔ q ∈ ports.take k) ∧
    (∀ q, (z.FingerprintHost zor net none ip ports q).isSome ↔ q ∈ ports) ∧
    (∀ q ∈ ports, z.FingerprintHost zor net none ip ports q =
      some (z.fingerprintPort zor net ip q)) ∧
    (∀ k q, (z.FingerprintHost zor net (some k) ip ports q).isSome ↔
      q ∈ ports.take k) :=
  ⟨fun q => NetworkScanner.host_keys _ ports q,
   fun q hq => NetworkScanner.host_val _ ports q hq,
   fun k q => NetworkScanner.host_keys_cancel _ k ports q,
   fun q => NetworkScanner.host_keys _ ports q,
   fun q hq => NetworkScanner.host_val _ ports q hq,
   fun k q => NetworkScanner.host_keys_cancel _ k ports q⟩

/-- Witness for C10: a two-port host scan holds exactly its ports. -/
theorem C10_witness :
    NetworkScanner.NewFingerprinter.FingerprintHost NetworkScanner.failNet none
        "192.0.2.1" [22, 80] 22 =
      some (NetworkScanner.NewFingerprinter.fingerprintPort NetworkScanner.failNet
        "192.0.2.1" 22) :=
  (C10_fingerprint_host_keys NetworkScanner.NewFingerprinter
    NetworkScanner.NewZgrabFingerprinter NetworkScanner.noZgrab
    NetworkScanner.failNet "192.0.2.1" [22, 80]).2.1 22 (by decide)

/-- Witness for C8: the initial pool state respects rate 3, and a release
step is available from one attempt in flight. -/
theorem C8_witness :
    (⟨5, 0, 0⟩ : NetworkScanner.PoolState).inflight ≤ 3 ∧
    NetworkScanner.PoolStep 3 ⟨5, 1, 0⟩ ⟨5, 0, 1⟩ :=
  ⟨C8_admission_gate.1 3 5 ⟨5, 0, 0⟩ NetworkScanner.PoolReachable.init,
   C8_admission_gate.2.2.2 3 ⟨5, 1, 0⟩ (by decide)⟩

/-- C6 (amended): for every string, the sanitized banner has length at most
512 + 3 (the ellipsis marker), and sanitization is idempotent whenever the
sanitized output has at most 512 characters or exactly 515 characters (it
can differ by a repeated ellipsis when the output has 513 or 514
characters). -/
theorem C6_sanitizeBanner_bounded_and_idem (s : String) :
    (NetworkScanner.sanitizeBanner s).length ≤ 515 ∧
    ((NetworkScanner.sanitizeBanner s).length ≤ 512 ∨
      (NetworkScanner.sanitizeBanner s).length = 515 →
      NetworkScanner.sanitizeBanner (NetworkScanner.sanitizeBanner s) =
        NetworkScanner.sanitizeBanner s) := by
  constructor
  · exact NetworkScanner.sanitizeBannerL_length_le s.data
  · intro h
    exact congrArg String.mk (NetworkScanner.sanitizeBannerL_idem s.data h)

/-- Witness for C6: a concrete application with the hypotheses discharged. -/
theorem C6_witness :
    NetworkScanner.sanitizeBanner (NetworkScanner.sanitizeBanner "  SSH-2.0-OpenSSH_9.0  ") =
      NetworkScanner.sanitizeBanner "  SSH-2.0-OpenSSH_9.0  " :=
  (C6_sanitizeBanner_bounded_and_idem "  SSH-2.0-OpenSSH_9.0  ").2 (Or.inl (by decide))

set_option maxRecDepth 100000 in
/-- C6 counterexample: sanitization is not idempotent as claimed.  The
input below begins with a non-whitespace control byte followed by a space;
after the control byte is dropped, truncation keeps a leading space that
the final trim removes, leaving 514 characters, so a second pass truncates
again and appends a second ellipsis. -/
theorem C6_counterexample :
    NetworkScanner.sanitizeBanner
        (NetworkScanner.sanitizeBanner ⟨Char.ofNat 1 :: ' ' :: List.replicate 515 'a'⟩) ≠
      NetworkScanner.sanitizeBanner ⟨Char.ofNat 1 :: ' ' :: List.replicate 515 'a'⟩ := by
  decide
